import Mathlib

/-!
# Verification of the shieldproof receipt-ledger engine

A shallow embedding of the core of `src/shieldproof` (contract registry,
milestone state machine, payment gate, reconciliation/variance engine, and
anchor layer), together with theorems settling the frozen claims about it.

Modelling conventions:
* The append-only receipt ledger (`shieldproof_receipts.jsonl`, read through
  `core/ledger.py::query_receipts`) is a `List Receipt` in append order.
  Mutating operations take the current ledger and return the new ledger
  together with `Except String Receipt`: `Except.error m` models
  `StopRule` being raised by the stoprule whose `metric` field is `m`
  (the human-readable exception messages are abstracted to those metric
  identifiers), `Except.ok r` models the returned receipt.
* Python dicts are embedded as structures whose optional fields are
  `Option`-valued; a `none` field models an absent (or `None`) key.
  Query filters compare keys exactly, as `dict.get(key) == value` does.
* Dollar amounts (Python floats) are embedded as `ℚ`.  Every amount,
  tolerance (`0.01`), threshold (`0.05` / `0.15`) and ratio appearing in the
  claims is exact in binary64 arithmetic at the claimed inputs, so the
  rational embedding is faithful there.
* Timestamps (`datetime.utcnow().isoformat()`) carry no information any
  claim depends on; they are abstracted to the constant `TS`.
* `dual_hash` (SHA256:BLAKE3 of `core/utils.py`) and the JSON serialisation
  fed to it are replaced by concrete injective stand-ins; no claim depends
  on digest values, only on a digest being a nonempty string.
-/

/-- Stand-in for `core/utils.py::dual_hash` (SHA256:BLAKE3).  No claim
depends on the digest values; only the shape (a nonempty string containing
a single `:` separator in the real system) matters. -/
def dual_hash (s : String) : String :=
  "sha256<" ++ s ++ ">:blake3<" ++ s ++ ">"

/-- Timestamp placeholder: `datetime.utcnow().isoformat() + "Z"` abstracted
to a constant, since no claim depends on clock values. -/
def TS : String := "1970-01-01T00:00:00.000000Z"

/-- A milestone entry as stored inside a contract receipt's `milestones`
list and as returned by `get_contract_milestones` (after the fold has
possibly attached `deliverable_hash` / `verifier_id` / `verification_ts`).
Registration (`register_contract`) always normalises entries to carry an
`id`, `description`, `amount`, `due_date` and `status` key, which is why
those are non-optional here. -/
structure Milestone where
  id : String
  description : String := ""
  amount : ℚ := 0
  due_date : Option String := none
  status : String := "PENDING"
  deliverable_hash : Option String := none
  verifier_id : Option String := none
  verification_ts : Option String := none
  deriving Repr, DecidableEq

/-- A milestone as passed *into* `register_contract`: a raw dict whose keys
may all be absent (`m.get("id", ...)`, `m.get("amount", 0)`, ...). -/
structure MilestoneInput where
  id : Option String := none
  description : Option String := none
  amount : Option ℚ := none
  due_date : Option String := none
  deriving Repr, DecidableEq

/-- The `terms` dict passed to `register_contract`: only its
`start_date` / `end_date` keys are read; the rest is hashed opaquely
(`rest` stands for the remaining serialised content). -/
structure Terms where
  start_date : Option String := none
  end_date : Option String := none
  rest : String := ""
  deriving Repr, DecidableEq

/-- A receipt: one line of the append-only JSONL ledger.  The union of the
fields written by `emit_contract_receipt`, `emit_milestone_receipt`,
`emit_payment_receipt`, `emit_variance_receipt`, the anomaly emitters and
the anchor layer.  `none` models an absent key.  (`ts` and `tenant_id`, a
constant, are omitted: no code path read by the claims consults them.) -/
structure Receipt where
  receipt_type : String
  contract_id : Option String := none
  milestone_id : Option String := none
  status : Option String := none
  amount : Option ℚ := none
  amount_usd : Option ℚ := none
  contractor : Option String := none
  contractor_name : Option String := none
  contract_type : Option String := none
  amount_fixed : Option ℚ := none
  total_value_usd : Option ℚ := none
  milestones : List Milestone := []
  milestone_count : Option ℕ := none
  terms_hash : Option String := none
  start_date : Option String := none
  end_date : Option String := none
  deliverable_hash : Option String := none
  verifier_id : Option String := none
  verification_ts : Option String := none
  payment_hash : Option String := none
  released_at : Option String := none
  metric : Option String := none
  reason : Option String := none
  action : Option String := none
  classification : Option String := none
  delta : Option ℚ := none
  amount_paid : Option ℚ := none
  amount_verified : Option ℚ := none
  expected_spend_usd : Option ℚ := none
  actual_spend_usd : Option ℚ := none
  variance_pct : Option ℚ := none
  threshold_pct : Option ℚ := none
  severity : Option String := none
  anchor_type : Option String := none
  receipt_hash : Option String := none
  merkle_root : Option String := none
  batch_size : Option ℕ := none
  receipt_ids : List String := []
  receipt_id : Option String := none
  payload_hash : Option String := none
  deriving Repr, DecidableEq

abbrev Ledger := List Receipt

/-! ## Serialisation stand-in and payload hashing -/

def encOptS : Option String → String
  | none => "-"
  | some s => "s:" ++ s

def encOptQ : Option ℚ → String
  | none => "-"
  | some q => "q:" ++ toString q.num ++ "/" ++ toString q.den

def encOptN : Option ℕ → String
  | none => "-"
  | some n => "n:" ++ toString n

def encMilestone (m : Milestone) : String :=
  m.id ++ "|" ++ m.description ++ "|" ++ encOptQ (some m.amount) ++ "|" ++
    encOptS m.due_date ++ "|" ++ m.status ++ "|" ++ encOptS m.deliverable_hash ++
    "|" ++ encOptS m.verifier_id ++ "|" ++ encOptS m.verification_ts

/-- Stand-in for `json.dumps(data, sort_keys=True)` over a receipt's data
fields (everything except `payload_hash` itself). -/
def encodeReceipt (r : Receipt) : String :=
  String.intercalate "," ([r.receipt_type,
    encOptS r.contract_id, encOptS r.milestone_id, encOptS r.status,
    encOptQ r.amount, encOptQ r.amount_usd, encOptS r.contractor,
    encOptS r.contractor_name, encOptS r.contract_type,
    encOptQ r.amount_fixed, encOptQ r.total_value_usd]
    ++ r.milestones.map encMilestone
    ++ [encOptN r.milestone_count, encOptS r.terms_hash,
    encOptS r.start_date, encOptS r.end_date, encOptS r.deliverable_hash,
    encOptS r.verifier_id, encOptS r.verification_ts, encOptS r.payment_hash,
    encOptS r.released_at, encOptS r.metric, encOptS r.reason,
    encOptS r.action, encOptS r.classification, encOptQ r.delta,
    encOptQ r.amount_paid, encOptQ r.amount_verified,
    encOptQ r.expected_spend_usd, encOptQ r.actual_spend_usd,
    encOptQ r.variance_pct, encOptQ r.threshold_pct, encOptS r.severity,
    encOptS r.anchor_type, encOptS r.receipt_hash, encOptS r.merkle_root,
    encOptN r.batch_size] ++ r.receipt_ids ++ [encOptS r.receipt_id])

/-- `core/receipt.py::emit_receipt` stamps every emitted receipt with
`payload_hash = dual_hash(json.dumps(data, sort_keys=True))`. -/
def withPayloadHash (r : Receipt) : Receipt :=
  { r with payload_hash := some (dual_hash (encodeReceipt r)) }

/-! ## Merkle root (`core/utils.py::merkle`) -/

/-- One level of the Merkle tree: pair adjacent hashes, duplicating the
last hash when the count is odd. -/
def merkleCombine : List String → List String
  | [] => []
  | [a] => [dual_hash (a ++ a)]
  | a :: b :: rest => dual_hash (a ++ b) :: merkleCombine rest

theorem merkleCombine_length (l : List String) :
    (merkleCombine l).length = (l.length + 1) / 2 := by
  induction l using merkleCombine.induct with
  | case1 => simp [merkleCombine]
  | case2 a => simp [merkleCombine]
  | case3 a b rest ih =>
      simp only [merkleCombine, List.length_cons, ih]
      omega

/-- The `while len(hashes) > 1` loop of `merkle`. -/
def merkleRootLoop : List String → String
  | [] => dual_hash "empty"
  | [a] => a
  | a :: b :: rest => merkleRootLoop (merkleCombine (a :: b :: rest))
  termination_by l => l.length
  decreasing_by
    simp only [merkleCombine_length, List.length_cons]
    omega

/-- `core/utils.py::merkle`: Merkle root of a batch of receipts. -/
def merkle (items : List Receipt) : String :=
  match items with
  | [] => dual_hash "empty"
  | l => merkleRootLoop (l.map (fun r => dual_hash (encodeReceipt r)))

/-! ## Ledger queries (`core/ledger.py::query_receipts` specialisations) -/

/-- `query_receipts("contract")`. -/
def contractsOf (L : Ledger) : List Receipt :=
  L.filter (fun r => r.receipt_type == "contract")

/-- `query_receipts("milestone")`. -/
def milestonesOf (L : Ledger) : List Receipt :=
  L.filter (fun r => r.receipt_type == "milestone")

/-- `query_receipts("payment")`. -/
def paymentsOf (L : Ledger) : List Receipt :=
  L.filter (fun r => r.receipt_type == "payment")

/-- `query_receipts("contract", contract_id=...)`; the key is an
`Option String` because `r.get("contract_id") == value` compares the raw
dict value (which reconcile-all may legitimately pass around). -/
def contractReceiptsFor (L : Ledger) (oc : Option String) : List Receipt :=
  (contractsOf L).filter (fun r => r.contract_id == oc)

/-- `query_receipts("milestone", contract_id=...)`. -/
def milestoneReceiptsFor (L : Ledger) (oc : Option String) : List Receipt :=
  (milestonesOf L).filter (fun r => r.contract_id == oc)

/-- `query_receipts("payment", contract_id=...)`. -/
def paymentReceiptsFor (L : Ledger) (oc : Option String) : List Receipt :=
  (paymentsOf L).filter (fun r => r.contract_id == oc)

/-- `query_receipts("payment", contract_id=..., milestone_id=...)`. -/
def paymentsFor (L : Ledger) (oc om : Option String) : List Receipt :=
  (paymentsOf L).filter (fun r => r.contract_id == oc && r.milestone_id == om)

/-- `contract/register.py::get_contract` generalised to a raw key:
the *last* contract receipt whose `contract_id` equals the key. -/
def get_contract' (L : Ledger) (oc : Option String) : Option Receipt :=
  (contractReceiptsFor L oc).getLast?

/-- `contract/register.py::get_contract`. -/
def get_contract (L : Ledger) (cid : String) : Option Receipt :=
  get_contract' L (some cid)

/-- Python string truthiness of an optional value: `None` and `""` are
falsy. -/
def truthyStr : Option String → Bool
  | none => false
  | some s => !(s == "")

/-- `{m["id"]: m.copy() for m in contract["milestones"]}`: Python-dict
insertion — replace the value in place if the key exists, else append. -/
def dictInsert (l : List Milestone) (m : Milestone) : List Milestone :=
  if l.any (fun x => x.id == m.id) then
    l.map (fun x => if x.id == m.id then m else x)
  else l ++ [m]

/-- Deduplicate a contract's declared milestone list by `id`, Python-dict
style (first position, last value wins). -/
def baseMilestones (ms : List Milestone) : List Milestone :=
  ms.foldl dictInsert []

/-- Apply one milestone receipt to the folded map, as the loop body of
`get_contract_milestones` does: receipts whose `milestone_id` is not among
the declared ids are silently ignored; `status` is always overwritten,
`deliverable_hash` / `verifier_id` / `verification_ts` only when truthy. -/
def applyUpd (r : Receipt) (m : Milestone) : Milestone :=
  { m with
    status := r.status.getD m.status,
    deliverable_hash :=
      if truthyStr r.deliverable_hash then r.deliverable_hash
      else m.deliverable_hash,
    verifier_id :=
      if truthyStr r.verifier_id then r.verifier_id
      else m.verifier_id,
    verification_ts :=
      if truthyStr r.verification_ts then r.verification_ts
      else m.verification_ts }

def applyMR (l : List Milestone) (r : Receipt) : List Milestone :=
  match r.milestone_id with
  | none => l
  | some mid => l.map (fun m => if m.id == mid then applyUpd r m else m)

/-- `contract/register.py::get_contract_milestones` over a raw key: fold
the registered milestone list with all subsequent milestone receipts. -/
def get_contract_milestones' (L : Ledger) (oc : Option String) : List Milestone :=
  match get_contract' L oc with
  | none => []
  | some c => (milestoneReceiptsFor L oc).foldl applyMR (baseMilestones c.milestones)

/-- `contract/register.py::get_contract_milestones`. -/
def get_contract_milestones (L : Ledger) (cid : String) : List Milestone :=
  get_contract_milestones' L (some cid)

/-- `milestone/verify.py::get_milestone`. -/
def get_milestone (L : Ledger) (cid mid : String) : Option Milestone :=
  (get_contract_milestones L cid).find? (fun m => m.id == mid)

/-- `payment/release.py::total_paid` over a raw key:
`sum(p.get("amount", p.get("amount_usd", 0)) for p in payments)`. -/
def payAmount (p : Receipt) : ℚ :=
  (p.amount.getD (p.amount_usd.getD 0))

def total_paid' (L : Ledger) (oc : Option String) : ℚ :=
  ((paymentReceiptsFor L oc).map payAmount).sum

/-- `payment/release.py::total_paid`. -/
def total_paid (L : Ledger) (cid : String) : ℚ :=
  total_paid' L (some cid)

/-! ## Anomaly receipts (the stoprule emitters) -/

/-- `contract/register.py::_stoprule_duplicate_contract`'s anomaly. -/
def duplicateContractAnomaly (cid : String) : Receipt :=
  withPayloadHash
    { receipt_type := "anomaly", metric := some "duplicate_contract",
      contract_id := some cid, delta := some (-1), action := some "reject",
      classification := some "violation" }

/-- `contract/register.py::_stoprule_invalid_amount`'s anomaly. -/
def invalidAmountAnomaly (cid reasonMsg : String) : Receipt :=
  withPayloadHash
    { receipt_type := "anomaly", metric := some "invalid_amount",
      contract_id := some cid, reason := some reasonMsg, delta := some (-1),
      action := some "reject", classification := some "violation" }

/-- `milestone/verify.py::_stoprule_unknown_contract`'s anomaly. -/
def unknownContractAnomaly (cid : String) : Receipt :=
  withPayloadHash
    { receipt_type := "anomaly", metric := some "unknown_contract",
      contract_id := some cid, delta := some (-1), action := some "reject",
      classification := some "violation" }

/-- `milestone/verify.py::_stoprule_unknown_milestone`'s anomaly. -/
def unknownMilestoneAnomaly (cid mid : String) : Receipt :=
  withPayloadHash
    { receipt_type := "anomaly", metric := some "unknown_milestone",
      contract_id := some cid, milestone_id := some mid, delta := some (-1),
      action := some "reject", classification := some "violation" }

/-- `milestone/verify.py::_stoprule_already_verified`'s anomaly. -/
def alreadyVerifiedAnomaly (cid mid : String) : Receipt :=
  withPayloadHash
    { receipt_type := "anomaly", metric := some "already_verified",
      contract_id := some cid, milestone_id := some mid, delta := some (-1),
      action := some "reject", classification := some "violation" }

/-- `payment/release.py::_stoprule_unverified_milestone`'s anomaly. -/
def unverifiedMilestoneAnomaly (cid mid reasonMsg : String) : Receipt :=
  withPayloadHash
    { receipt_type := "anomaly", metric := some "unverified_milestone",
      contract_id := some cid, milestone_id := some mid, reason := some reasonMsg,
      delta := some (-1), action := some "halt", classification := some "violation" }

/-- `payment/release.py::_stoprule_already_paid`'s anomaly. -/
def alreadyPaidAnomaly (cid mid : String) : Receipt :=
  withPayloadHash
    { receipt_type := "anomaly", metric := some "already_paid",
      contract_id := some cid, milestone_id := some mid, delta := some (-1),
      action := some "reject", classification := some "violation" }

/-- `reconcile/variance.py::_emit_overpayment_anomaly`. -/
def overpaymentAnomaly (oc : Option String) (paid verified : ℚ) : Receipt :=
  withPayloadHash
    { receipt_type := "anomaly", metric := some "overpayment",
      contract_id := oc, amount_paid := some paid, amount_verified := some verified,
      delta := some (paid - verified), action := some "investigate",
      classification := some "violation" }

/-- `reconcile/variance.py::_emit_unverified_payment_anomaly`. -/
def unverifiedPaymentAnomaly (oc om : Option String) (amt : ℚ) : Receipt :=
  withPayloadHash
    { receipt_type := "anomaly", metric := some "unverified_payment",
      contract_id := oc, milestone_id := om, amount := some amt, delta := some (-1),
      action := some "investigate", classification := some "violation" }

/-! ## Contract registry (`contract/register.py`) -/

/-- Milestone normalisation in `register_contract`: default ids `M1, M2, …`
(the Python counter is `len(normalized_milestones)+1`, i.e. the position),
default amount `0`, and status forced to `PENDING`. -/
def normalizeMilestones : ℕ → List MilestoneInput → List Milestone
  | _, [] => []
  | k, m :: rest =>
      { id := m.id.getD ("M" ++ toString (k + 1)),
        description := m.description.getD "",
        amount := m.amount.getD 0,
        due_date := m.due_date,
        status := "PENDING" } :: normalizeMilestones (k + 1) rest

/-- `sum(m.get("amount", 0) for m in milestones)`. -/
def milestoneSum (ms : List MilestoneInput) : ℚ :=
  (ms.map (fun m => m.amount.getD 0)).sum

/-- The contract receipt emitted by a successful `register_contract`. -/
def contractReceipt (contractor : String) (amount : ℚ) (ms : List Milestone)
    (terms : Terms) (cid ctype : String) : Receipt :=
  withPayloadHash
    { receipt_type := "contract", contract_id := some cid,
      contractor := some contractor, contractor_name := some contractor,
      contract_type := some ctype, amount_fixed := some amount,
      total_value_usd := some amount, milestones := ms,
      milestone_count := some ms.length,
      terms_hash := some (dual_hash (encOptS terms.start_date ++ "|" ++
      encOptS terms.end_date ++ "|" ++ terms.rest)),
      start_date := terms.start_date, end_date := terms.end_date }

/-- `contract/register.py::register_contract` (with the caller supplying
`contract_id`; the `uuid` generation branch is outside every claim).
Checks, in source order: duplicate contract, `amount <= 0`, milestone sum
within the `0.01` tolerance; each failure appends the corresponding
anomaly receipt and raises its stoprule. -/
def register_contract (L : Ledger) (contractor : String) (amount : ℚ)
    (milestones : List MilestoneInput) (terms : Terms) (cid : String)
    (ctype : String := "fixed-price") : Ledger × Except String Receipt :=
  match contractReceiptsFor L (some cid) with
  | _ :: _ => (L ++ [duplicateContractAnomaly cid], Except.error "duplicate_contract")
  | [] =>
    if amount ≤ 0 then
      (L ++ [invalidAmountAnomaly cid "Amount must be positive"],
       Except.error "invalid_amount")
    else if 1/100 < |milestoneSum milestones - amount| then
      (L ++ [invalidAmountAnomaly cid "Milestone sum does not equal contract amount"],
       Except.error "invalid_amount")
    else
      let r := contractReceipt contractor amount
        (normalizeMilestones 0 milestones) terms cid ctype
      (L ++ [r], Except.ok r)

/-! ## Milestone state machine (`milestone/verify.py`) -/

/-- The milestone receipt emitted by `submit_deliverable`. -/
def deliveredReceipt (cid mid : String) (deliverable : String) : Receipt :=
  withPayloadHash
    { receipt_type := "milestone", contract_id := some cid,
      milestone_id := some mid,
      deliverable_hash := some (dual_hash deliverable),
      status := some "DELIVERED", verifier_id := none, verification_ts := none }

/-- `milestone/verify.py::submit_deliverable`: requires contract and
milestone to exist; hashes the deliverable; emits a `DELIVERED` milestone
receipt.  (No status precondition: it never inspects the current state.) -/
def submit_deliverable (L : Ledger) (cid mid : String) (deliverable : String) :
    Ledger × Except String Receipt :=
  match get_contract L cid with
  | none => (L ++ [unknownContractAnomaly cid], Except.error "unknown_contract")
  | some _ =>
    match (get_contract_milestones L cid).find? (fun m => m.id == mid) with
    | none => (L ++ [unknownMilestoneAnomaly cid mid], Except.error "unknown_milestone")
    | some _ =>
      let r := deliveredReceipt cid mid deliverable
      (L ++ [r], Except.ok r)

/-- The milestone receipt emitted by a successful `verify_milestone`. -/
def verifiedReceipt (cid mid : String) (m : Milestone) (verifier : String)
    (passed : Bool) : Receipt :=
  withPayloadHash
    { receipt_type := "milestone", contract_id := some cid,
      milestone_id := some mid, deliverable_hash := m.deliverable_hash,
      status := some (if passed then "VERIFIED" else "DISPUTED"),
      verifier_id := some verifier, verification_ts := some TS }

/-- `milestone/verify.py::verify_milestone` (v2.0 call shape, the one every
claim refers to: `(contract_id, milestone_id, verifier_id, passed)`).
Requires the contract and milestone to exist and the milestone not to be
already `VERIFIED`/`PAID` (or legacy lowercase `verified`); then emits
`VERIFIED` if `passed` else `DISPUTED`. -/
def verify_milestone (L : Ledger) (cid mid verifier : String) (passed : Bool) :
    Ledger × Except String Receipt :=
  match get_contract L cid with
  | none => (L ++ [unknownContractAnomaly cid], Except.error "unknown_contract")
  | some _ =>
    match (get_contract_milestones L cid).find? (fun m => m.id == mid) with
    | none => (L ++ [unknownMilestoneAnomaly cid mid], Except.error "unknown_milestone")
    | some m =>
      if ["VERIFIED", "PAID", "verified"].contains m.status then
        (L ++ [alreadyVerifiedAnomaly cid mid], Except.error "already_verified")
      else
        let r := verifiedReceipt cid mid m verifier passed
        (L ++ [r], Except.ok r)

/-! ## Payment gate (`payment/release.py`) -/

/-- Modelled from the spec: `payment/config.py` is not present in the
source tree (only `payment/__init__.py` imports its names).  §4.4 makes
"Milestone status must be VERIFIED" an unconditional precondition of
`release_payment`, so the flag guarding that check is modelled as `true`. -/
def REQUIRE_VERIFIED_MILESTONE : Bool := true

/-- The payment receipt emitted by a successful `release_payment`: carries
the milestone's `amount` (also as `amount_usd`) and a `payment_hash` over
the payment data. -/
def paymentReceipt (cid mid : String) (amt : ℚ) : Receipt :=
  withPayloadHash
    { receipt_type := "payment", contract_id := some cid,
      milestone_id := some mid, amount := some amt, amount_usd := some amt,
      payment_hash := some (dual_hash ("payment|" ++ cid ++ "|" ++ mid ++ "|" ++
      encOptQ (some amt) ++ "|" ++ TS)),
      released_at := some TS }

/-- The follow-up milestone receipt emitted by `release_payment`,
transitioning the milestone to `PAID` while carrying over the folded
milestone's `deliverable_hash` / `verifier_id` / `verification_ts`. -/
def paidReceipt (cid mid : String) (m : Milestone) : Receipt :=
  withPayloadHash
    { receipt_type := "milestone", contract_id := some cid,
      milestone_id := some mid, status := some "PAID",
      deliverable_hash := m.deliverable_hash, verifier_id := m.verifier_id,
      verification_ts := m.verification_ts }

/-- `payment/release.py::release_payment`.  Checks, in source order:
milestone exists (else the unverified-milestone stoprule with reason
"Milestone not found"), no prior payment receipt for the pair (else the
already-paid stoprule), status `VERIFIED` (else the unverified-milestone
stoprule); on success appends the payment receipt and then the `PAID`
milestone receipt. -/
def release_payment (L : Ledger) (cid mid : String) : Ledger × Except String Receipt :=
  match get_milestone L cid mid with
  | none =>
      (L ++ [unverifiedMilestoneAnomaly cid mid "Milestone not found"],
       Except.error "unverified_milestone")
  | some m =>
    match paymentsFor L (some cid) (some mid) with
    | _ :: _ => (L ++ [alreadyPaidAnomaly cid mid], Except.error "already_paid")
    | [] =>
      if REQUIRE_VERIFIED_MILESTONE && !(["VERIFIED", "verified"].contains m.status) then
        (L ++ [unverifiedMilestoneAnomaly cid mid "Status is not VERIFIED"],
         Except.error "unverified_milestone")
      else
        let p := paymentReceipt cid mid m.amount
        (L ++ [p, paidReceipt cid mid m], Except.ok p)

/-! ## Reconciliation / variance engine (`reconcile/variance.py`) -/

/-- `core/constants.py::VARIANCE_THRESHOLD` (0.05): `reconcile/config.py`
is not present in the source tree; the constant is declared, with this
value, in `core/constants.py`. -/
def VARIANCE_THRESHOLD : ℚ := 5 / 100

/-- `core/constants.py::VARIANCE_CRITICAL` (0.15). -/
def VARIANCE_CRITICAL : ℚ := 15 / 100

/-- The statuses counting as "verified" for variance and reconciliation:
`["VERIFIED", "PAID", "verified"]`. -/
def verifiedStatuses : List String := ["VERIFIED", "PAID", "verified"]

/-- The dict returned by `check_variance`.  The contract-not-found branch
returns `{"contract_id", "error", "variance": 0.0}`, modelled by
`error := true` with all numeric fields at their `0` defaults. -/
structure VarianceResult where
  contract_id : String
  variance : ℚ := 0
  expected_spend_usd : ℚ := 0
  actual_spend_usd : ℚ := 0
  milestone_progress : ℚ := 0
  threshold_pct : ℚ := VARIANCE_THRESHOLD
  severity : Option String := none
  error : Bool := false
  deriving Repr, DecidableEq

/-- The variance receipt emitted by `check_variance` when the threshold is
exceeded (`reconcile/receipts.py::emit_variance_receipt`). -/
def varianceReceipt (cid : String) (expected actual variance : ℚ)
    (sev : String) : Receipt :=
  withPayloadHash
    { receipt_type := "variance", contract_id := some cid,
      expected_spend_usd := some expected, actual_spend_usd := some actual,
      variance_pct := some variance, threshold_pct := some VARIANCE_THRESHOLD,
      severity := some sev }

/-- `reconcile/variance.py::check_variance`: expected spend is the
contract total times the fraction of milestones whose folded status is in
`verifiedStatuses`; actual spend is `total_paid`; the relative variance is
computed only when expected spend is positive; a variance receipt is
appended when `|variance|` exceeds the warning threshold (`critical`
severity above the critical threshold). -/
def check_variance (L : Ledger) (cid : String) : Ledger × VarianceResult :=
  match get_contract L cid with
  | none => (L, { contract_id := cid, error := true })
  | some c =>
      let ms := get_contract_milestones L cid
      let paid := total_paid L cid
      let contractTotal := c.amount_fixed.getD (c.total_value_usd.getD 0)
      let verifiedCount := (ms.filter (fun m => verifiedStatuses.contains m.status)).length
      let progress : ℚ := if ms.length = 0 then 0 else (verifiedCount : ℚ) / (ms.length : ℚ)
      let expected := contractTotal * progress
      let actual := paid
      let variance := if 0 < expected then (actual - expected) / expected else 0
      let base : VarianceResult :=
        { contract_id := cid, variance := variance, expected_spend_usd := expected,
          actual_spend_usd := actual, milestone_progress := progress }
      if VARIANCE_THRESHOLD < |variance| then
        let sev := if VARIANCE_CRITICAL < |variance| then "critical" else "warning"
        (L ++ [varianceReceipt cid expected actual variance sev],
         { base with severity := some sev })
      else (L, base)

/-- The dict returned by `reconcile_contract`.  The contract-not-found
branch returns `{"contract_id", "error", "status": "ERROR"}`, modelled by
`error := true` (all other fields then sit at their defaults, matching the
`r.get(key, 0)` reads in `get_waste_summary`). -/
structure Report where
  contract_id : Option String
  contractor : String := "Unknown"
  amount_fixed : ℚ := 0
  amount_paid : ℚ := 0
  amount_verified : ℚ := 0
  milestones_total : ℕ := 0
  milestones_pending : ℕ := 0
  milestones_delivered : ℕ := 0
  milestones_verified : ℕ := 0
  milestones_paid : ℕ := 0
  milestones_disputed : ℕ := 0
  status : String := "ERROR"
  discrepancy : ℚ := 0
  anomalies : ℕ := 0
  error : Bool := false
  deriving Repr, DecidableEq

/-- The payments flagged by `reconcile_contract`'s unverified-payment loop:
those whose `milestone_id` resolves to a milestone of the contract whose
folded status is not in `verifiedStatuses` (payments whose milestone id
does not resolve are skipped, as `next(..., None)` yields no match). -/
def unverifiedPayments (ms : List Milestone) (payments : List Receipt) : List Receipt :=
  payments.filter (fun p =>
    match p.milestone_id with
    | none => false
    | some pmid =>
        match ms.find? (fun m => m.id == pmid) with
        | none => false
        | some m => !(verifiedStatuses.contains m.status))

/-- `reconcile/variance.py::reconcile_contract` over a raw contract key,
returning the report together with the anomaly receipts it emits (in
emission order: the overpayment anomaly, then one unverified-payment
anomaly per flagged payment).  The status is the last write of the
sequential Python overrides: OVERPAID if paid exceeds verified, then
UNVERIFIED_PAYMENT if any payment is flagged, then DISPUTED if any
milestone is disputed.

The verified amount (`amount_verified`) is split out as `amountVerifiedOf`:
`sum(m.get("amount", 0) for m in milestones)` over the milestones whose
folded status is in `verifiedStatuses`. -/
def amountVerifiedOf (L : Ledger) (oc : Option String) : ℚ :=
  (((get_contract_milestones' L oc).filter
    (fun m => verifiedStatuses.contains m.status)).map (fun m => m.amount)).sum

def reconcile_contract' (L : Ledger) (oc : Option String) : Report × List Receipt :=
  match get_contract' L oc with
  | none => ({ contract_id := oc, error := true }, [])
  | some c =>
      let ms := get_contract_milestones' L oc
      let payments := paymentReceiptsFor L oc
      let paid := total_paid' L oc
      let amountVerified := amountVerifiedOf L oc
      let overpaid := amountVerified < paid
      let unv := unverifiedPayments ms payments
      let disputedCount :=
        (ms.filter (fun m => ["DISPUTED", "rejected"].contains m.status)).length
      let status :=
        if 0 < disputedCount then "DISPUTED"
        else if !unv.isEmpty then "UNVERIFIED_PAYMENT"
        else if overpaid then "OVERPAID"
        else "ON_TRACK"
      let anoms :=
        (if overpaid then [overpaymentAnomaly oc paid amountVerified] else [])
          ++ unv.map (fun p => unverifiedPaymentAnomaly oc p.milestone_id (payAmount p))
      ({ contract_id := oc,
         contractor := c.contractor.getD "Unknown",
         amount_fixed := c.amount_fixed.getD (c.total_value_usd.getD 0),
         amount_paid := paid,
         amount_verified := amountVerified,
         milestones_total := ms.length,
         milestones_pending := (ms.filter (fun m => m.status == "PENDING")).length,
         milestones_delivered :=
           (ms.filter (fun m => ["DELIVERED", "submitted"].contains m.status)).length,
         milestones_verified :=
           (ms.filter (fun m => ["VERIFIED", "verified"].contains m.status)).length,
         milestones_paid := (ms.filter (fun m => m.status == "PAID")).length,
         milestones_disputed := disputedCount,
         status := status,
         discrepancy := if overpaid then paid - amountVerified else 0,
         anomalies := anoms.length }, anoms)

/-- `reconcile/variance.py::reconcile_contract`. -/
def reconcile_contract (L : Ledger) (cid : String) : Report × List Receipt :=
  reconcile_contract' L (some cid)

/-- The contract keys `reconcile_all` iterates: the `contract_id` of every
contract receipt, first occurrence first, deduplicated by the `seen` set. -/
def dedupKeys : List (Option String) → List (Option String)
  | [] => []
  | x :: xs => x :: dedupKeys (xs.filter (fun y => !(y == x)))
  termination_by l => l.length
  decreasing_by
    have := List.length_filter_le (fun y => !(y == x)) xs
    simp only [List.length_cons]
    omega

def contractKeys (L : Ledger) : List (Option String) :=
  dedupKeys ((contractsOf L).map (fun r => r.contract_id))

/-- The loop of `reconcile_all`: each `reconcile_contract` call reads the
ledger as grown by the anomaly receipts emitted so far. -/
def reconcileAllAux (L : Ledger) : List (Option String) → Ledger × List Report
  | [] => (L, [])
  | c :: cs =>
      let pr := reconcile_contract' L c
      let rest := reconcileAllAux (L ++ pr.2) cs
      (rest.1, pr.1 :: rest.2)

/-- `reconcile/variance.py::reconcile_all`: reconcile every distinct
contract id (snapshot taken before the loop), threading the ledger. -/
def reconcile_all (L : Ledger) : Ledger × List Report :=
  reconcileAllAux L (contractKeys L)

/-- The dict returned by `get_waste_summary`. -/
structure Summary where
  total_contracts : ℕ
  total_committed : ℚ
  total_paid : ℚ
  total_verified : ℚ
  waste_identified : ℚ
  milestones_pending : ℕ
  milestones_disputed : ℕ
  contracts_on_track : ℕ
  contracts_overpaid : ℕ
  contracts_unverified : ℕ
  contracts_disputed : ℕ
  deriving Repr, DecidableEq

/-- `reconcile/variance.py::get_waste_summary`: aggregate the
`reconcile_all` reports; waste is paid-minus-verified when positive. -/
def get_waste_summary (L : Ledger) : Ledger × Summary :=
  let pr := reconcile_all L
  let reports := pr.2
  let totalPaid := (reports.map (fun r => r.amount_paid)).sum
  let totalVerified := (reports.map (fun r => r.amount_verified)).sum
  (pr.1,
   { total_contracts := reports.length,
     total_committed := (reports.map (fun r => r.amount_fixed)).sum,
     total_paid := totalPaid,
     total_verified := totalVerified,
     waste_identified := if totalVerified < totalPaid then totalPaid - totalVerified else 0,
     milestones_pending := (reports.map (fun r => r.milestones_pending)).sum,
     milestones_disputed := (reports.map (fun r => r.milestones_disputed)).sum,
     contracts_on_track := (reports.filter (fun r => r.status == "ON_TRACK")).length,
     contracts_overpaid := (reports.filter (fun r => r.status == "OVERPAID")).length,
     contracts_unverified :=
       (reports.filter (fun r => r.status == "UNVERIFIED_PAYMENT")).length,
     contracts_disputed := (reports.filter (fun r => r.status == "DISPUTED")).length })

/-! ## Anchor layer (`core/ledger.py::anchor_batch`, `core/anchor.py`) -/

/-- Python's `a or b` on two optional strings (`None`/`""` falsy). -/
def pyOr (a b : Option String) : Option String :=
  if truthyStr a then a else b

/-- `receipt.get("receipt_id") or receipt.get("payload_hash")`. -/
def ridOf (r : Receipt) : Option String :=
  pyOr r.receipt_id r.payload_hash

/-- The id `anchor_chain` collects for a receipt, when truthy. -/
def truthyRid (r : Receipt) : Option String :=
  if truthyStr (ridOf r) then ridOf r else none

/-- `core/ledger.py::anchor_batch`: a bare Merkle commitment.  Note it sets
neither `anchor_type` nor `receipt_hash` nor `receipt_ids`. -/
def anchor_batch (receipts : List Receipt) : Receipt :=
  withPayloadHash
    { receipt_type := "anchor", merkle_root := some (merkle receipts),
      batch_size := some receipts.length }

/-- `core/anchor.py::anchor_receipt`: a single-receipt anchor;
`receipt_id` is `receipt.get("receipt_id", receipt.get("payload_hash"))`
(plain dict-get fallback, not truthiness). -/
def anchor_single (r : Receipt) : Receipt :=
  withPayloadHash
    { receipt_type := "anchor", anchor_type := some "single",
      receipt_id := (match r.receipt_id with
                     | some s => some s
                     | none => r.payload_hash),
      receipt_hash := some (dual_hash (encodeReceipt r)) }

/-- `core/anchor.py::anchor_chain`: a chain anchor carrying the Merkle
root and the truthy ids of the batch's receipts. -/
def anchor_chain (receipts : List Receipt) : Receipt :=
  withPayloadHash
    { receipt_type := "anchor", anchor_type := some "chain",
      merkle_root := some (merkle receipts),
      batch_size := some receipts.length,
      receipt_ids := receipts.filterMap truthyRid }

/-- `core/anchor.py::verify_anchor`: dispatch on
`anchor.get("anchor_type", "single")`.  The single branch compares the
anchor's stored `receipt_hash` against the receipt's hash (an absent
`receipt_hash` compares unequal to any digest, as `None == str` is
`False`); the chain branch tests membership of the receipt's id in the
anchor's `receipt_ids`. -/
def verify_anchor (receipt anchor : Receipt) : Bool :=
  let atype := anchor.anchor_type.getD "single"
  if atype == "single" then
    match anchor.receipt_hash with
    | some h => h == dual_hash (encodeReceipt receipt)
    | none => false
  else if atype == "chain" then
    match ridOf receipt with
    | some s => anchor.receipt_ids.contains s
    | none => false
  else false

/-! ## Helper lemmas -/

theorem withPayloadHash_receipt_type (r : Receipt) :
    (withPayloadHash r).receipt_type = r.receipt_type := rfl

theorem withPayloadHash_contract_id (r : Receipt) :
    (withPayloadHash r).contract_id = r.contract_id := rfl

theorem withPayloadHash_milestone_id (r : Receipt) :
    (withPayloadHash r).milestone_id = r.milestone_id := rfl

theorem withPayloadHash_status (r : Receipt) :
    (withPayloadHash r).status = r.status := rfl

theorem contractsOf_append (L₁ L₂ : Ledger) :
    contractsOf (L₁ ++ L₂) = contractsOf L₁ ++ contractsOf L₂ := by
  simp [contractsOf]

theorem milestonesOf_append (L₁ L₂ : Ledger) :
    milestonesOf (L₁ ++ L₂) = milestonesOf L₁ ++ milestonesOf L₂ := by
  simp [milestonesOf]

theorem paymentsOf_append (L₁ L₂ : Ledger) :
    paymentsOf (L₁ ++ L₂) = paymentsOf L₁ ++ paymentsOf L₂ := by
  simp [paymentsOf]

/-- A receipt invisible to all three typed queries (anomalies, variance
receipts, anchors). -/
def noise (r : Receipt) : Prop :=
  r.receipt_type ≠ "contract" ∧ r.receipt_type ≠ "milestone" ∧
    r.receipt_type ≠ "payment"

theorem contractsOf_eq_nil_of_noise (l : Ledger) (h : ∀ r ∈ l, noise r) :
    contractsOf l = [] := by
  simp only [contractsOf, List.filter_eq_nil_iff]
  intro r hr
  simpa using (h r hr).1

theorem milestonesOf_eq_nil_of_noise (l : Ledger) (h : ∀ r ∈ l, noise r) :
    milestonesOf l = [] := by
  simp only [milestonesOf, List.filter_eq_nil_iff]
  intro r hr
  simpa using (h r hr).2.1

theorem paymentsOf_eq_nil_of_noise (l : Ledger) (h : ∀ r ∈ l, noise r) :
    paymentsOf l = [] := by
  simp only [paymentsOf, List.filter_eq_nil_iff]
  intro r hr
  simpa using (h r hr).2.2

theorem contractsOf_append_noise (L extra : Ledger) (h : ∀ r ∈ extra, noise r) :
    contractsOf (L ++ extra) = contractsOf L := by
  rw [contractsOf_append, contractsOf_eq_nil_of_noise extra h, List.append_nil]

theorem milestonesOf_append_noise (L extra : Ledger) (h : ∀ r ∈ extra, noise r) :
    milestonesOf (L ++ extra) = milestonesOf L := by
  rw [milestonesOf_append, milestonesOf_eq_nil_of_noise extra h, List.append_nil]

theorem paymentsOf_append_noise (L extra : Ledger) (h : ∀ r ∈ extra, noise r) :
    paymentsOf (L ++ extra) = paymentsOf L := by
  rw [paymentsOf_append, paymentsOf_eq_nil_of_noise extra h, List.append_nil]

/-! ### Id-preservation of the milestone fold -/

theorem applyMR_map_id (l : List Milestone) (r : Receipt) :
    (applyMR l r).map Milestone.id = l.map Milestone.id := by
  unfold applyMR
  cases r.milestone_id with
  | none => rfl
  | some mid =>
      rw [List.map_map]
      apply List.map_congr_left
      intro m _
      by_cases h : m.id = mid <;> simp [h, applyUpd]

theorem foldl_applyMR_map_id (rs : List Receipt) :
    ∀ l : List Milestone,
      ((rs.foldl applyMR l).map Milestone.id) = l.map Milestone.id := by
  induction rs with
  | nil => intro l; rfl
  | cons r rs ih =>
      intro l
      simp only [List.foldl_cons]
      rw [ih, applyMR_map_id]

theorem dictInsert_ids (l : List Milestone) (m : Milestone) :
    (dictInsert l m).map Milestone.id =
      if l.any (fun x => x.id == m.id) then l.map Milestone.id
      else l.map Milestone.id ++ [m.id] := by
  unfold dictInsert
  split
  · rw [List.map_map]
    apply List.map_congr_left
    intro x _
    by_cases h : x.id = m.id <;> simp [h]
  · simp

theorem mem_dictInsert_ids (l : List Milestone) (m : Milestone) (i : String) :
    i ∈ (dictInsert l m).map Milestone.id ↔
      i ∈ l.map Milestone.id ∨ i = m.id := by
  rw [dictInsert_ids]
  split
  · rename_i h
    constructor
    · exact fun hi => Or.inl hi
    · rintro (hi | rfl)
      · exact hi
      · obtain ⟨x, hx, hxe⟩ := List.any_eq_true.mp h
        exact List.mem_map.mpr ⟨x, hx, (beq_iff_eq.mp hxe)⟩
  · simp

theorem nodup_dictInsert_ids (l : List Milestone) (m : Milestone)
    (h : (l.map Milestone.id).Nodup) :
    ((dictInsert l m).map Milestone.id).Nodup := by
  rw [dictInsert_ids]
  split
  · exact h
  · rename_i hany
    rw [List.nodup_append]
    refine ⟨h, List.nodup_singleton _, ?_⟩
    intro i hi hi'
    rw [List.mem_singleton] at hi'
    subst hi'
    obtain ⟨x, hx, hxe⟩ := List.mem_map.mp hi
    have hall : ∀ x ∈ l, ¬(x.id = m.id) := by simpa using hany
    exact hall x hx hxe

theorem foldl_dictInsert_ids_nodup (ms : List Milestone) :
    ∀ acc : List Milestone, (acc.map Milestone.id).Nodup →
      (((ms.foldl dictInsert acc)).map Milestone.id).Nodup := by
  induction ms with
  | nil => intro acc h; exact h
  | cons m ms ih =>
      intro acc h
      exact ih _ (nodup_dictInsert_ids acc m h)

theorem mem_foldl_dictInsert_ids (ms : List Milestone) :
    ∀ (acc : List Milestone) (i : String),
      i ∈ ((ms.foldl dictInsert acc)).map Milestone.id ↔
        i ∈ acc.map Milestone.id ∨ i ∈ ms.map Milestone.id := by
  induction ms with
  | nil => intro acc i; simp
  | cons m ms ih =>
      intro acc i
      simp only [List.foldl_cons, List.map_cons, List.mem_cons]
      rw [ih, mem_dictInsert_ids]
      tauto

theorem baseMilestones_ids_nodup (ms : List Milestone) :
    ((baseMilestones ms).map Milestone.id).Nodup :=
  foldl_dictInsert_ids_nodup ms [] (by simp)

theorem mem_baseMilestones_ids (ms : List Milestone) (i : String) :
    i ∈ (baseMilestones ms).map Milestone.id ↔ i ∈ ms.map Milestone.id := by
  unfold baseMilestones
  rw [mem_foldl_dictInsert_ids]
  simp

theorem find?_id_isSome (l : List Milestone) (mid : String) :
    (l.find? (fun m => m.id == mid)).isSome ↔ mid ∈ l.map Milestone.id := by
  rw [List.find?_isSome]
  simp only [List.mem_map, beq_iff_eq]

theorem contractsOf_eq_nil_of_ne (l : Ledger)
    (h : ∀ r ∈ l, ¬ r.receipt_type = "contract") : contractsOf l = [] := by
  simp only [contractsOf, List.filter_eq_nil_iff]
  intro r hr
  simpa using h r hr

theorem milestonesOf_eq_nil_of_ne (l : Ledger)
    (h : ∀ r ∈ l, ¬ r.receipt_type = "milestone") : milestonesOf l = [] := by
  simp only [milestonesOf, List.filter_eq_nil_iff]
  intro r hr
  simpa using h r hr

theorem paymentsOf_eq_nil_of_ne (l : Ledger)
    (h : ∀ r ∈ l, ¬ r.receipt_type = "payment") : paymentsOf l = [] := by
  simp only [paymentsOf, List.filter_eq_nil_iff]
  intro r hr
  simpa using h r hr

theorem get_contract'_congr (L₁ L₂ : Ledger) (oc : Option String)
    (h : contractsOf L₁ = contractsOf L₂) :
    get_contract' L₁ oc = get_contract' L₂ oc := by
  unfold get_contract' contractReceiptsFor
  rw [h]

theorem milestoneReceiptsFor_congr (L₁ L₂ : Ledger) (oc : Option String)
    (h : milestonesOf L₁ = milestonesOf L₂) :
    milestoneReceiptsFor L₁ oc = milestoneReceiptsFor L₂ oc := by
  unfold milestoneReceiptsFor
  rw [h]

theorem get_contract_milestones'_congr (L₁ L₂ : Ledger) (oc : Option String)
    (hc : contractsOf L₁ = contractsOf L₂)
    (hm : milestonesOf L₁ = milestonesOf L₂) :
    get_contract_milestones' L₁ oc = get_contract_milestones' L₂ oc := by
  unfold get_contract_milestones'
  rw [get_contract'_congr L₁ L₂ oc hc, milestoneReceiptsFor_congr L₁ L₂ oc hm]

theorem paymentsFor_congr (L₁ L₂ : Ledger) (oc om : Option String)
    (h : paymentsOf L₁ = paymentsOf L₂) :
    paymentsFor L₁ oc om = paymentsFor L₂ oc om := by
  unfold paymentsFor
  rw [h]

theorem total_paid'_congr (L₁ L₂ : Ledger) (oc : Option String)
    (h : paymentsOf L₁ = paymentsOf L₂) :
    total_paid' L₁ oc = total_paid' L₂ oc := by
  unfold total_paid' paymentReceiptsFor
  rw [h]

/-- The ids of the folded milestone list are exactly the (deduplicated)
declared ids, whatever milestone receipts have accumulated. -/
theorem get_contract_milestones'_ids (L : Ledger) (oc : Option String)
    (c : Receipt) (h : get_contract' L oc = some c) :
    (get_contract_milestones' L oc).map Milestone.id =
      (baseMilestones c.milestones).map Milestone.id := by
  unfold get_contract_milestones'
  rw [h]
  exact foldl_applyMR_map_id _ _

theorem get_contract_of_milestone (L : Ledger) (cid mid : String)
    (m : Milestone) (h : get_milestone L cid mid = some m) :
    ∃ c, get_contract L cid = some c := by
  cases hg : get_contract L cid with
  | some c => exact ⟨c, rfl⟩
  | none =>
      exfalso
      unfold get_milestone get_contract_milestones get_contract_milestones' at h
      unfold get_contract at hg
      rw [hg] at h
      simp at h

theorem get_milestone_isSome_iff (L : Ledger) (cid mid : String) :
    (get_milestone L cid mid).isSome ↔
      mid ∈ (get_contract_milestones L cid).map Milestone.id :=
  find?_id_isSome _ _

/-! ### Branch lemmas for `release_payment` -/

theorem release_payment_not_found (L : Ledger) (cid mid : String)
    (h : get_milestone L cid mid = none) :
    release_payment L cid mid =
      (L ++ [unverifiedMilestoneAnomaly cid mid "Milestone not found"],
       Except.error "unverified_milestone") := by
  unfold release_payment
  rw [h]

theorem release_payment_already (L : Ledger) (cid mid : String) (m : Milestone)
    (h : get_milestone L cid mid = some m)
    (p : Receipt) (ps : List Receipt)
    (hp : paymentsFor L (some cid) (some mid) = p :: ps) :
    release_payment L cid mid =
      (L ++ [alreadyPaidAnomaly cid mid], Except.error "already_paid") := by
  unfold release_payment
  rw [h, hp]

theorem release_payment_unverified (L : Ledger) (cid mid : String) (m : Milestone)
    (h : get_milestone L cid mid = some m)
    (hp : paymentsFor L (some cid) (some mid) = [])
    (hs : (["VERIFIED", "verified"].contains m.status) = false) :
    release_payment L cid mid =
      (L ++ [unverifiedMilestoneAnomaly cid mid "Status is not VERIFIED"],
       Except.error "unverified_milestone") := by
  unfold release_payment
  rw [h, hp]
  simp only [REQUIRE_VERIFIED_MILESTONE, hs, Bool.not_false, Bool.and_true,
    if_true]

theorem release_payment_ok (L : Ledger) (cid mid : String) (m : Milestone)
    (h : get_milestone L cid mid = some m)
    (hp : paymentsFor L (some cid) (some mid) = [])
    (hs : (["VERIFIED", "verified"].contains m.status) = true) :
    release_payment L cid mid =
      (L ++ [paymentReceipt cid mid m.amount, paidReceipt cid mid m],
       Except.ok (paymentReceipt cid mid m.amount)) := by
  unfold release_payment
  rw [h, hp]
  simp only [REQUIRE_VERIFIED_MILESTONE, hs, Bool.not_true, Bool.and_false,
    Bool.false_eq_true, if_false]

/-! ### Branch lemmas for `verify_milestone`, `submit_deliverable`,
`register_contract` -/

theorem verify_milestone_no_contract (L : Ledger) (cid mid v : String) (ps : Bool)
    (h0 : get_contract L cid = none) :
    verify_milestone L cid mid v ps =
      (L ++ [unknownContractAnomaly cid], Except.error "unknown_contract") := by
  unfold verify_milestone
  rw [h0]

theorem verify_milestone_no_milestone (L : Ledger) (cid mid v : String) (ps : Bool)
    (c : Receipt) (h0 : get_contract L cid = some c)
    (h : get_milestone L cid mid = none) :
    verify_milestone L cid mid v ps =
      (L ++ [unknownMilestoneAnomaly cid mid], Except.error "unknown_milestone") := by
  unfold get_milestone at h
  unfold verify_milestone
  rw [h0, h]

theorem verify_milestone_already (L : Ledger) (cid mid v : String) (ps : Bool)
    (c : Receipt) (h0 : get_contract L cid = some c)
    (m : Milestone) (h : get_milestone L cid mid = some m)
    (hs : (["VERIFIED", "PAID", "verified"].contains m.status) = true) :
    verify_milestone L cid mid v ps =
      (L ++ [alreadyVerifiedAnomaly cid mid], Except.error "already_verified") := by
  unfold get_milestone at h
  unfold verify_milestone
  rw [h0, h]
  simp only [hs, if_true]

theorem verify_milestone_ok (L : Ledger) (cid mid v : String) (ps : Bool)
    (c : Receipt) (h0 : get_contract L cid = some c)
    (m : Milestone) (h : get_milestone L cid mid = some m)
    (hs : (["VERIFIED", "PAID", "verified"].contains m.status) = false) :
    verify_milestone L cid mid v ps =
      (L ++ [verifiedReceipt cid mid m v ps],
       Except.ok (verifiedReceipt cid mid m v ps)) := by
  unfold get_milestone at h
  unfold verify_milestone
  rw [h0, h]
  simp only [hs, Bool.false_eq_true, if_false]

theorem register_contract_dup (L : Ledger) (contractor : String) (amount : ℚ)
    (ms : List MilestoneInput) (terms : Terms) (cid ctype : String)
    (r : Receipt) (rs : List Receipt)
    (h : contractReceiptsFor L (some cid) = r :: rs) :
    register_contract L contractor amount ms terms cid ctype =
      (L ++ [duplicateContractAnomaly cid], Except.error "duplicate_contract") := by
  unfold register_contract
  rw [h]

theorem register_contract_nonpos (L : Ledger) (contractor : String) (amount : ℚ)
    (ms : List MilestoneInput) (terms : Terms) (cid ctype : String)
    (h : contractReceiptsFor L (some cid) = []) (ha : amount ≤ 0) :
    register_contract L contractor amount ms terms cid ctype =
      (L ++ [invalidAmountAnomaly cid "Amount must be positive"],
       Except.error "invalid_amount") := by
  unfold register_contract
  rw [h]
  simp only [if_pos ha]

theorem register_contract_badsum (L : Ledger) (contractor : String) (amount : ℚ)
    (ms : List MilestoneInput) (terms : Terms) (cid ctype : String)
    (h : contractReceiptsFor L (some cid) = []) (ha : ¬ amount ≤ 0)
    (hs : 1/100 < |milestoneSum ms - amount|) :
    register_contract L contractor amount ms terms cid ctype =
      (L ++ [invalidAmountAnomaly cid "Milestone sum does not equal contract amount"],
       Except.error "invalid_amount") := by
  unfold register_contract
  rw [h]
  simp only [if_neg ha, if_pos hs]

theorem register_contract_ok (L : Ledger) (contractor : String) (amount : ℚ)
    (ms : List MilestoneInput) (terms : Terms) (cid ctype : String)
    (h : contractReceiptsFor L (some cid) = []) (ha : ¬ amount ≤ 0)
    (hs : ¬ 1/100 < |milestoneSum ms - amount|) :
    register_contract L contractor amount ms terms cid ctype =
      (L ++ [contractReceipt contractor amount (normalizeMilestones 0 ms) terms cid ctype],
       Except.ok (contractReceipt contractor amount (normalizeMilestones 0 ms) terms cid ctype)) := by
  unfold register_contract
  rw [h]
  simp only [if_neg ha, if_neg hs]

theorem normalizeMilestones_status (k : ℕ) (ms : List MilestoneInput) :
    ∀ m ∈ normalizeMilestones k ms, m.status = "PENDING" := by
  induction ms generalizing k with
  | nil => intro m hm; simp [normalizeMilestones] at hm
  | cons x xs ih =>
      intro m hm
      simp only [normalizeMilestones, List.mem_cons] at hm
      rcases hm with rfl | hm
      · rfl
      · exact ih (k + 1) m hm

theorem submit_deliverable_no_contract (L : Ledger) (cid mid d : String)
    (h0 : get_contract L cid = none) :
    submit_deliverable L cid mid d =
      (L ++ [unknownContractAnomaly cid], Except.error "unknown_contract") := by
  unfold submit_deliverable
  rw [h0]

theorem submit_deliverable_no_milestone (L : Ledger) (cid mid d : String)
    (c : Receipt) (h0 : get_contract L cid = some c)
    (h : get_milestone L cid mid = none) :
    submit_deliverable L cid mid d =
      (L ++ [unknownMilestoneAnomaly cid mid], Except.error "unknown_milestone") := by
  unfold get_milestone at h
  unfold submit_deliverable
  rw [h0, h]

theorem submit_deliverable_ok (L : Ledger) (cid mid d : String)
    (c : Receipt) (h0 : get_contract L cid = some c)
    (m : Milestone) (h : get_milestone L cid mid = some m) :
    submit_deliverable L cid mid d =
      (L ++ [deliveredReceipt cid mid d], Except.ok (deliveredReceipt cid mid d)) := by
  unfold get_milestone at h
  unfold submit_deliverable
  rw [h0, h]

/-! ### Projections of the emitted receipts -/

theorem paymentReceipt_fields (cid mid : String) (amt : ℚ) :
    (paymentReceipt cid mid amt).receipt_type = "payment" ∧
    (paymentReceipt cid mid amt).contract_id = some cid ∧
    (paymentReceipt cid mid amt).milestone_id = some mid ∧
    (paymentReceipt cid mid amt).amount = some amt :=
  ⟨rfl, rfl, rfl, rfl⟩

theorem paidReceipt_fields (cid mid : String) (m : Milestone) :
    (paidReceipt cid mid m).receipt_type = "milestone" ∧
    (paidReceipt cid mid m).contract_id = some cid ∧
    (paidReceipt cid mid m).milestone_id = some mid ∧
    (paidReceipt cid mid m).status = some "PAID" :=
  ⟨rfl, rfl, rfl, rfl⟩

theorem verifiedReceipt_fields (cid mid : String) (m : Milestone) (v : String)
    (ps : Bool) :
    (verifiedReceipt cid mid m v ps).receipt_type = "milestone" ∧
    (verifiedReceipt cid mid m v ps).status =
      some (if ps then "VERIFIED" else "DISPUTED") :=
  ⟨rfl, rfl⟩

theorem deliveredReceipt_fields (cid mid d : String) :
    (deliveredReceipt cid mid d).receipt_type = "milestone" ∧
    (deliveredReceipt cid mid d).status = some "DELIVERED" :=
  ⟨rfl, rfl⟩

theorem anomaly_types :
    (∀ cid, (duplicateContractAnomaly cid).receipt_type = "anomaly") ∧
    (∀ cid r, (invalidAmountAnomaly cid r).receipt_type = "anomaly") ∧
    (∀ cid, (unknownContractAnomaly cid).receipt_type = "anomaly") ∧
    (∀ cid mid, (unknownMilestoneAnomaly cid mid).receipt_type = "anomaly") ∧
    (∀ cid mid, (alreadyVerifiedAnomaly cid mid).receipt_type = "anomaly") ∧
    (∀ cid mid r, (unverifiedMilestoneAnomaly cid mid r).receipt_type = "anomaly") ∧
    (∀ cid mid, (alreadyPaidAnomaly cid mid).receipt_type = "anomaly") ∧
    (∀ oc p v, (overpaymentAnomaly oc p v).receipt_type = "anomaly") ∧
    (∀ oc om a, (unverifiedPaymentAnomaly oc om a).receipt_type = "anomaly") :=
  ⟨fun _ => rfl, fun _ _ => rfl, fun _ => rfl, fun _ _ => rfl, fun _ _ => rfl,
   fun _ _ _ => rfl, fun _ _ => rfl, fun _ _ _ => rfl, fun _ _ _ => rfl⟩

/-! ### Payment-query computations -/

theorem paymentsFor_append (L₁ L₂ : Ledger) (oc om : Option String) :
    paymentsFor (L₁ ++ L₂) oc om = paymentsFor L₁ oc om ++ paymentsFor L₂ oc om := by
  unfold paymentsFor
  rw [paymentsOf_append, List.filter_append]

theorem paymentsFor_singleton_payment (cid mid : String) (amt : ℚ) :
    paymentsFor [paymentReceipt cid mid amt] (some cid) (some mid) =
      [paymentReceipt cid mid amt] := by
  simp [paymentsFor, paymentsOf, paymentReceipt, withPayloadHash]

theorem paymentsFor_eq_nil_of_ne (l : Ledger) (oc om : Option String)
    (h : ∀ r ∈ l, ¬ r.receipt_type = "payment") :
    paymentsFor l oc om = [] := by
  unfold paymentsFor
  rw [paymentsOf_eq_nil_of_ne l h]
  rfl

theorem get_milestone_isSome_append (L : Ledger) (cid mid : String)
    (extra : Ledger) (h : (get_milestone L cid mid).isSome)
    (hc : ∀ r ∈ extra, ¬ r.receipt_type = "contract") :
    (get_milestone (L ++ extra) cid mid).isSome := by
  rw [get_milestone_isSome_iff] at h ⊢
  have hco : contractsOf (L ++ extra) = contractsOf L := by
    rw [contractsOf_append, contractsOf_eq_nil_of_ne extra hc, List.append_nil]
  cases hg : get_contract' L (some cid) with
  | none =>
      exfalso
      unfold get_contract_milestones get_contract_milestones' at h
      rw [hg] at h
      simp at h
  | some c =>
      have hg' : get_contract' (L ++ extra) (some cid) = some c := by
        rw [get_contract'_congr (L ++ extra) L (some cid) hco, hg]
      unfold get_contract_milestones at h ⊢
      rw [get_contract_milestones'_ids (L ++ extra) (some cid) c hg']
      rw [get_contract_milestones'_ids L (some cid) c hg] at h
      exact h

theorem contractsOf_append_single (L : Ledger) (a : Receipt)
    (h : ¬ a.receipt_type = "contract") :
    contractsOf (L ++ [a]) = contractsOf L := by
  rw [contractsOf_append, contractsOf_eq_nil_of_ne [a] ?_, List.append_nil]
  intro r hr
  rw [List.mem_singleton] at hr
  subst hr
  exact h

theorem milestonesOf_append_single (L : Ledger) (a : Receipt)
    (h : ¬ a.receipt_type = "milestone") :
    milestonesOf (L ++ [a]) = milestonesOf L := by
  rw [milestonesOf_append, milestonesOf_eq_nil_of_ne [a] ?_, List.append_nil]
  intro r hr
  rw [List.mem_singleton] at hr
  subst hr
  exact h

theorem paymentsOf_append_single (L : Ledger) (a : Receipt)
    (h : ¬ a.receipt_type = "payment") :
    paymentsOf (L ++ [a]) = paymentsOf L := by
  rw [paymentsOf_append, paymentsOf_eq_nil_of_ne [a] ?_, List.append_nil]
  intro r hr
  rw [List.mem_singleton] at hr
  subst hr
  exact h

/-! ## The claims -/

/-- A registered contract `C1` of amount 100 with a single milestone `M1`
still `PENDING`: the input for the C2 witness and the C3 counterexample. -/
def pendingLedger : Ledger :=
  [{ receipt_type := "contract", contract_id := some "C1",
     amount_fixed := some 100, total_value_usd := some 100,
     milestones := [{ id := "M1", amount := 100 }] }]

/-- C2: on a ledger where the milestone `(contract_id, milestone_id)`
exists and folds to `PENDING` or `DELIVERED` and no payment receipt exists
for the pair, `release_payment` raises the unverified-milestone stoprule,
appends exactly the anomaly receipt (metric `unverified_milestone`), and
appends no payment receipt. -/
theorem spec_c2 (L : Ledger) (cid mid : String) (m : Milestone)
    (hm : get_milestone L cid mid = some m)
    (hst : m.status = "PENDING" ∨ m.status = "DELIVERED")
    (hp : paymentsFor L (some cid) (some mid) = []) :
    release_payment L cid mid =
      (L ++ [unverifiedMilestoneAnomaly cid mid "Status is not VERIFIED"],
       Except.error "unverified_milestone") ∧
    (unverifiedMilestoneAnomaly cid mid "Status is not VERIFIED").receipt_type
      = "anomaly" ∧
    (unverifiedMilestoneAnomaly cid mid "Status is not VERIFIED").metric
      = some "unverified_milestone" ∧
    paymentsOf (release_payment L cid mid).1 = paymentsOf L := by
  have hs : (["VERIFIED", "verified"].contains m.status) = false := by
    rcases hst with h | h <;> rw [h] <;> rfl
  have hrel := release_payment_unverified L cid mid m hm hp hs
  refine ⟨hrel, rfl, rfl, ?_⟩
  rw [hrel]
  exact paymentsOf_append_single L _
    (fun hab => (by decide : ¬ ("anomaly" : String) = "payment") hab)

/-- C2 witness: the concrete `pendingLedger` instance. -/
theorem spec_c2_witness :
    (release_payment pendingLedger "C1" "M1").2 =
      Except.error "unverified_milestone" ∧
    paymentsOf (release_payment pendingLedger "C1" "M1").1 =
      paymentsOf pendingLedger := by
  have h := spec_c2 pendingLedger "C1" "M1"
    { id := "M1", amount := 100 } (by decide) (Or.inl rfl) (by decide)
  exact ⟨by rw [h.1], h.2.2.2⟩

/-- A ledger holding only a stray payment receipt for `(C1, M1)` with no
registered contract: the input refuting C1 as stated. -/
def strayPaymentLedger : Ledger :=
  [{ receipt_type := "payment", contract_id := some "C1",
     milestone_id := some "M1", amount := some 100 }]

/-- C1 counterexample: a payment receipt for `(C1, M1)` exists in the
ledger, yet `release_payment` raises the unverified-milestone stoprule
("Milestone not found"), not the duplicate-payment (`already_paid`) one —
the milestone-existence check precedes the duplicate-payment check. -/
theorem spec_c1_counterexample :
    paymentsFor strayPaymentLedger (some "C1") (some "M1") ≠ [] ∧
    (release_payment strayPaymentLedger "C1" "M1").2 =
      Except.error "unverified_milestone" ∧
    (release_payment strayPaymentLedger "C1" "M1").2 ≠
      Except.error "already_paid" := by
  have h := release_payment_not_found strayPaymentLedger "C1" "M1" (by decide)
  refine ⟨by decide, by rw [h], ?_⟩
  rw [h]
  intro hcontra
  injection hcontra with hmsg
  exact absurd hmsg (by decide)

/-- C1 (amended): when the milestone *exists* and a payment receipt for
the pair already exists, `release_payment` raises the duplicate-payment
(`already_paid`) stoprule and appends no payment receipt (when the
milestone does not exist, the not-found stoprule fires first instead) —
and consequently releasing twice on a verified, unpaid milestone succeeds
once, raises `already_paid` the second time, and leaves exactly one
payment receipt for the pair in the ledger. -/
theorem spec_c1 :
    (∀ (L : Ledger) (cid mid : String),
      (get_milestone L cid mid).isSome = true →
      paymentsFor L (some cid) (some mid) ≠ [] →
      (release_payment L cid mid).2 = Except.error "already_paid" ∧
      paymentsFor (release_payment L cid mid).1 (some cid) (some mid) =
        paymentsFor L (some cid) (some mid))
    ∧
    (∀ (L : Ledger) (cid mid : String) (m : Milestone),
      get_milestone L cid mid = some m →
      paymentsFor L (some cid) (some mid) = [] →
      (["VERIFIED", "verified"].contains m.status) = true →
      (release_payment L cid mid).2 = Except.ok (paymentReceipt cid mid m.amount) ∧
      (release_payment (release_payment L cid mid).1 cid mid).2 =
        Except.error "already_paid" ∧
      (paymentsFor (release_payment (release_payment L cid mid).1 cid mid).1
        (some cid) (some mid)).length = 1) := by
  have hanomne : ∀ (cid mid : String) (x : Receipt),
      x ∈ [alreadyPaidAnomaly cid mid] → ¬ x.receipt_type = "payment" := by
    intro cid mid x hx
    rw [List.mem_singleton] at hx
    subst hx
    exact fun hab => (by decide : ¬ ("anomaly" : String) = "payment") hab
  constructor
  · intro L cid mid hm hp
    obtain ⟨m, hm'⟩ := Option.isSome_iff_exists.mp hm
    cases hpl : paymentsFor L (some cid) (some mid) with
    | nil => exact absurd hpl hp
    | cons p ps =>
        have hrel := release_payment_already L cid mid m hm' p ps hpl
        rw [hrel]
        refine ⟨rfl, ?_⟩
        rw [paymentsFor_append,
          paymentsFor_eq_nil_of_ne [alreadyPaidAnomaly cid mid] (some cid)
            (some mid) (hanomne cid mid),
          List.append_nil]
        exact hpl
  · intro L cid mid m hm hp hs
    have hrel := release_payment_ok L cid mid m hm hp hs
    have hpaidne : ∀ x ∈ [paidReceipt cid mid m], ¬ x.receipt_type = "payment" := by
      intro x hx
      rw [List.mem_singleton] at hx
      subst hx
      exact fun hab => (by decide : ¬ ("milestone" : String) = "payment") hab
    have hpay1 :
        paymentsFor (release_payment L cid mid).1 (some cid) (some mid) =
          [paymentReceipt cid mid m.amount] := by
      rw [hrel]
      show paymentsFor
        (L ++ ([paymentReceipt cid mid m.amount] ++ [paidReceipt cid mid m]))
        (some cid) (some mid) = _
      rw [← List.append_assoc, paymentsFor_append, paymentsFor_append, hp,
        paymentsFor_singleton_payment,
        paymentsFor_eq_nil_of_ne [paidReceipt cid mid m] (some cid) (some mid)
          hpaidne,
        List.append_nil, List.nil_append]
    have hiso : (get_milestone (release_payment L cid mid).1 cid mid).isSome := by
      rw [hrel]
      apply get_milestone_isSome_append L cid mid
        [paymentReceipt cid mid m.amount, paidReceipt cid mid m]
        (by rw [hm]; rfl)
      intro r hr
      rcases List.mem_cons.mp hr with rfl | hr
      · exact fun hab => (by decide : ¬ ("payment" : String) = "contract") hab
      · rw [List.mem_singleton] at hr
        subst hr
        exact fun hab => (by decide : ¬ ("milestone" : String) = "contract") hab
    obtain ⟨m2, hm2⟩ := Option.isSome_iff_exists.mp hiso
    have hrel2 := release_payment_already (release_payment L cid mid).1 cid mid
      m2 hm2 (paymentReceipt cid mid m.amount) [] hpay1
    refine ⟨by rw [hrel], by rw [hrel2], ?_⟩
    rw [hrel2]
    show (paymentsFor ((release_payment L cid mid).1 ++ [alreadyPaidAnomaly cid mid])
      (some cid) (some mid)).length = 1
    rw [paymentsFor_append,
      paymentsFor_eq_nil_of_ne [alreadyPaidAnomaly cid mid] (some cid) (some mid)
        (hanomne cid mid),
      List.append_nil, hpay1]
    rfl

/-- A registered contract `C1` whose milestone `M1` is `VERIFIED` and
unpaid: the input for the C1 witness. -/
def verifiedLedger : Ledger :=
  [{ receipt_type := "contract", contract_id := some "C1",
     amount_fixed := some 100, total_value_usd := some 100,
     milestones := [{ id := "M1", amount := 100, status := "VERIFIED" }] }]

/-- C1 witness: on `verifiedLedger`, the first `release_payment` succeeds
and the second raises `already_paid`, leaving one payment receipt. -/
theorem spec_c1_witness :
    (release_payment verifiedLedger "C1" "M1").2 =
      Except.ok (paymentReceipt "C1" "M1" 100) ∧
    (release_payment (release_payment verifiedLedger "C1" "M1").1 "C1" "M1").2 =
      Except.error "already_paid" ∧
    (paymentsFor (release_payment
        (release_payment verifiedLedger "C1" "M1").1 "C1" "M1").1
      (some "C1") (some "M1")).length = 1 := by
  exact spec_c1.2 verifiedLedger "C1" "M1"
    { id := "M1", amount := 100, status := "VERIFIED" }
    (by decide) (by decide) (by decide)

/-- C3 counterexample: on `pendingLedger` the milestone `M1` folds to
`PENDING`, yet `verify_milestone` succeeds and emits a `VERIFIED`
milestone receipt — the PENDING → DELIVERED step can be skipped, so
verification of a still-PENDING milestone is *not* rejected. -/
theorem spec_c3_counterexample :
    (get_milestone pendingLedger "C1" "M1").map (fun m => m.status) =
      some "PENDING" ∧
    ((verify_milestone pendingLedger "C1" "M1" "V1" true).2.toOption.map
      (fun r => r.status)) = some (some "VERIFIED") := by decide

/-- C3 (amended): `verify_milestone` rejects (with the `already_verified`
stoprule, appending no milestone receipt) exactly the milestones whose
folded status is already `VERIFIED`, `PAID` (or legacy `verified`); any
other status — including a still-`PENDING` milestone, which thereby skips
the DELIVERED step — is accepted and yields a milestone receipt with
status `VERIFIED` when `passed` is true and `DISPUTED` otherwise.  `PAID`
is never emitted by `verify_milestone`. -/
theorem spec_c3 (L : Ledger) (cid mid v : String) (ps : Bool)
    (c : Receipt) (h0 : get_contract L cid = some c)
    (m : Milestone) (hm : get_milestone L cid mid = some m) :
    ((["VERIFIED", "PAID", "verified"].contains m.status) = true →
      verify_milestone L cid mid v ps =
        (L ++ [alreadyVerifiedAnomaly cid mid], Except.error "already_verified") ∧
      milestonesOf (verify_milestone L cid mid v ps).1 = milestonesOf L)
    ∧
    ((["VERIFIED", "PAID", "verified"].contains m.status) = false →
      verify_milestone L cid mid v ps =
        (L ++ [verifiedReceipt cid mid m v ps],
         Except.ok (verifiedReceipt cid mid m v ps)) ∧
      (verifiedReceipt cid mid m v ps).status =
        some (if ps then "VERIFIED" else "DISPUTED") ∧
      (verifiedReceipt cid mid m v ps).status ≠ some "PAID") := by
  constructor
  · intro hs
    have hv := verify_milestone_already L cid mid v ps c h0 m hm hs
    refine ⟨hv, ?_⟩
    rw [hv]
    exact milestonesOf_append_single L _
      (fun hab => (by decide : ¬ ("anomaly" : String) = "milestone") hab)
  · intro hs
    have hv := verify_milestone_ok L cid mid v ps c h0 m hm hs
    refine ⟨hv, rfl, ?_⟩
    show some (if ps then "VERIFIED" else "DISPUTED") ≠ some "PAID"
    intro hcontra
    injection hcontra with hcontra
    cases ps with
    | true => exact absurd hcontra (by decide)
    | false => exact absurd hcontra (by decide)

/-- A registered contract `C1` whose milestone `M1` is already `VERIFIED`:
input for the already-verified branch of the C3 witness. -/
def alreadyVerifiedLedger : Ledger :=
  [{ receipt_type := "contract", contract_id := some "C1",
     amount_fixed := some 100, total_value_usd := some 100,
     milestones := [{ id := "M1", amount := 100, status := "VERIFIED" }] }]

/-- C3 witness: re-verifying the already-`VERIFIED` `M1` raises the
`already_verified` stoprule, and verifying the `PENDING` milestone of
`pendingLedger` emits a `DISPUTED` receipt when `passed` is false. -/
theorem spec_c3_witness :
    (verify_milestone alreadyVerifiedLedger "C1" "M1" "V1" true).2 =
      Except.error "already_verified" ∧
    (verify_milestone pendingLedger "C1" "M1" "V1" false).2.toOption.map
      (fun r => r.status) = some (some "DISPUTED") := by
  have h1 := (spec_c3 alreadyVerifiedLedger "C1" "M1" "V1" true
    ({ receipt_type := "contract", contract_id := some "C1",
       amount_fixed := some 100, total_value_usd := some 100,
       milestones := [{ id := "M1", amount := 100, status := "VERIFIED" }] })
    (by decide)
    { id := "M1", amount := 100, status := "VERIFIED" } (by decide)).1
    (by decide)
  have h2 := (spec_c3 pendingLedger "C1" "M1" "V1" false
    ({ receipt_type := "contract", contract_id := some "C1",
       amount_fixed := some 100, total_value_usd := some 100,
       milestones := [{ id := "M1", amount := 100 }] })
    (by decide)
    { id := "M1", amount := 100 } (by decide)).2
    (by decide)
  exact ⟨by rw [h1.1], by rw [h2.1]; rfl⟩

theorem milestonesOf_singleton_ms (r : Receipt) (h : r.receipt_type = "milestone") :
    milestonesOf [r] = [r] := by
  simp [milestonesOf, h]

/-- C4: a `PAID` milestone receipt is emitted only by `release_payment`,
immediately after the payment receipt carrying the folded milestone's
amount; `verify_milestone` emits only `VERIFIED` (when `passed`) or
`DISPUTED` receipts, `submit_deliverable` only `DELIVERED` ones, and
`register_contract` emits no milestone receipt at all. -/
theorem spec_c4 :
    (∀ (L : Ledger) (cid mid : String) (p : Receipt),
      (release_payment L cid mid).2 = Except.ok p →
      ∃ m, get_milestone L cid mid = some m ∧
        p = paymentReceipt cid mid m.amount ∧
        p.receipt_type = "payment" ∧ p.amount = some m.amount ∧
        (release_payment L cid mid).1 = L ++ [p, paidReceipt cid mid m] ∧
        (paidReceipt cid mid m).receipt_type = "milestone" ∧
        (paidReceipt cid mid m).status = some "PAID")
    ∧ (∀ (L : Ledger) (cid mid v : String) (ps : Bool) (r : Receipt),
        (verify_milestone L cid mid v ps).2 = Except.ok r →
        r.status = some (if ps then "VERIFIED" else "DISPUTED") ∧
        r.status ≠ some "PAID")
    ∧ (∀ (L : Ledger) (cid mid v : String) (ps : Bool) (r : Receipt),
        r ∈ milestonesOf (verify_milestone L cid mid v ps).1 →
        r ∈ milestonesOf L ∨
          r.status = some (if ps then "VERIFIED" else "DISPUTED"))
    ∧ (∀ (L : Ledger) (cid mid d : String) (r : Receipt),
        r ∈ milestonesOf (submit_deliverable L cid mid d).1 →
        r ∈ milestonesOf L ∨ r.status = some "DELIVERED")
    ∧ (∀ (L : Ledger) (contractor : String) (amount : ℚ)
        (ms : List MilestoneInput) (terms : Terms) (cid ctype : String),
        milestonesOf (register_contract L contractor amount ms terms cid ctype).1 =
          milestonesOf L) := by
  have hstatus_ne : ∀ ps : Bool,
      some (if ps then "VERIFIED" else "DISPUTED") ≠ (some "PAID" : Option String) := by
    intro ps hcontra
    injection hcontra with hcontra
    cases ps with
    | true => exact absurd hcontra (by decide)
    | false => exact absurd hcontra (by decide)
  refine ⟨?_, ?_, ?_, ?_, ?_⟩
  · intro L cid mid p hok
    cases hgm : get_milestone L cid mid with
    | none =>
        rw [release_payment_not_found L cid mid hgm] at hok
        exact Except.noConfusion hok
    | some m =>
        cases hpl : paymentsFor L (some cid) (some mid) with
        | cons q qs =>
            rw [release_payment_already L cid mid m hgm q qs hpl] at hok
            exact Except.noConfusion hok
        | nil =>
            cases hst : (["VERIFIED", "verified"].contains m.status) with
            | false =>
                rw [release_payment_unverified L cid mid m hgm hpl hst] at hok
                exact Except.noConfusion hok
            | true =>
                have hrel := release_payment_ok L cid mid m hgm hpl hst
                rw [hrel] at hok
                have hpeq : paymentReceipt cid mid m.amount = p := by
                  injection hok
                refine ⟨m, rfl, hpeq.symm, ?_, ?_, ?_, rfl, rfl⟩
                · rw [← hpeq]; rfl
                · rw [← hpeq]; rfl
                · rw [hrel, ← hpeq]
  · intro L cid mid v ps r hok
    cases hc : get_contract L cid with
    | none =>
        rw [verify_milestone_no_contract L cid mid v ps hc] at hok
        exact Except.noConfusion hok
    | some c =>
        cases hgm : get_milestone L cid mid with
        | none =>
            rw [verify_milestone_no_milestone L cid mid v ps c hc hgm] at hok
            exact Except.noConfusion hok
        | some m =>
            cases hst : (["VERIFIED", "PAID", "verified"].contains m.status) with
            | true =>
                rw [verify_milestone_already L cid mid v ps c hc m hgm hst] at hok
                exact Except.noConfusion hok
            | false =>
                rw [verify_milestone_ok L cid mid v ps c hc m hgm hst] at hok
                have hreq : verifiedReceipt cid mid m v ps = r := by
                  injection hok
                rw [← hreq]
                exact ⟨rfl, hstatus_ne ps⟩
  · intro L cid mid v ps r hr
    cases hc : get_contract L cid with
    | none =>
        rw [verify_milestone_no_contract L cid mid v ps hc] at hr
        rw [milestonesOf_append_single L _
          (fun hab => (by decide : ¬ ("anomaly" : String) = "milestone") hab)] at hr
        exact Or.inl hr
    | some c =>
        cases hgm : get_milestone L cid mid with
        | none =>
            rw [verify_milestone_no_milestone L cid mid v ps c hc hgm] at hr
            rw [milestonesOf_append_single L _
              (fun hab => (by decide : ¬ ("anomaly" : String) = "milestone") hab)] at hr
            exact Or.inl hr
        | some m =>
            cases hst : (["VERIFIED", "PAID", "verified"].contains m.status) with
            | true =>
                rw [verify_milestone_already L cid mid v ps c hc m hgm hst] at hr
                rw [milestonesOf_append_single L _
                  (fun hab => (by decide : ¬ ("anomaly" : String) = "milestone") hab)] at hr
                exact Or.inl hr
            | false =>
                rw [verify_milestone_ok L cid mid v ps c hc m hgm hst] at hr
                rw [milestonesOf_append,
                  milestonesOf_singleton_ms (verifiedReceipt cid mid m v ps) rfl] at hr
                rcases List.mem_append.mp hr with hr | hr
                · exact Or.inl hr
                · rw [List.mem_singleton] at hr
                  subst hr
                  exact Or.inr rfl
  · intro L cid mid d r hr
    cases hc : get_contract L cid with
    | none =>
        rw [submit_deliverable_no_contract L cid mid d hc] at hr
        rw [milestonesOf_append_single L _
          (fun hab => (by decide : ¬ ("anomaly" : String) = "milestone") hab)] at hr
        exact Or.inl hr
    | some c =>
        cases hgm : get_milestone L cid mid with
        | none =>
            rw [submit_deliverable_no_milestone L cid mid d c hc hgm] at hr
            rw [milestonesOf_append_single L _
              (fun hab => (by decide : ¬ ("anomaly" : String) = "milestone") hab)] at hr
            exact Or.inl hr
        | some m =>
            rw [submit_deliverable_ok L cid mid d c hc m hgm] at hr
            rw [milestonesOf_append,
              milestonesOf_singleton_ms (deliveredReceipt cid mid d) rfl] at hr
            rcases List.mem_append.mp hr with hr | hr
            · exact Or.inl hr
            · rw [List.mem_singleton] at hr
              subst hr
              exact Or.inr rfl
  · intro L contractor amount ms terms cid ctype
    cases hdup : contractReceiptsFor L (some cid) with
    | cons q qs =>
        rw [register_contract_dup L contractor amount ms terms cid ctype q qs hdup]
        exact milestonesOf_append_single L _
          (fun hab => (by decide : ¬ ("anomaly" : String) = "milestone") hab)
    | nil =>
        by_cases ha : amount ≤ 0
        · rw [register_contract_nonpos L contractor amount ms terms cid ctype hdup ha]
          exact milestonesOf_append_single L _
            (fun hab => (by decide : ¬ ("anomaly" : String) = "milestone") hab)
        · by_cases hs : 1/100 < |milestoneSum ms - amount|
          · rw [register_contract_badsum L contractor amount ms terms cid ctype
              hdup ha hs]
            exact milestonesOf_append_single L _
              (fun hab => (by decide : ¬ ("anomaly" : String) = "milestone") hab)
          · rw [register_contract_ok L contractor amount ms terms cid ctype
              hdup ha hs]
            exact milestonesOf_append_single L _
              (fun hab => (by decide : ¬ ("contract" : String) = "milestone") hab)

/-- C4 witness: on `verifiedLedger`, `release_payment` succeeds; the
inversion applied there yields the payment/PAID pair. -/
theorem spec_c4_witness :
    ∃ m, get_milestone verifiedLedger "C1" "M1" = some m ∧
      (release_payment verifiedLedger "C1" "M1").1 =
        verifiedLedger ++ [paymentReceipt "C1" "M1" 100, paidReceipt "C1" "M1" m] ∧
      (paidReceipt "C1" "M1" m).status = some "PAID" := by
  obtain ⟨m, hm, hpeq, _, _, hledger, _, hstatus⟩ :=
    spec_c4.1 verifiedLedger "C1" "M1" (paymentReceipt "C1" "M1" 100) (by rfl)
  refine ⟨m, hm, ?_, hstatus⟩
  rw [hledger, hpeq]

theorem contractsOf_singleton_c (r : Receipt) (h : r.receipt_type = "contract") :
    contractsOf [r] = [r] := by
  simp [contractsOf, h]

/-- C5 counterexample: registering with `amount = -1` under an *existing*
contract id raises the duplicate-contract stoprule first — no
invalid-amount anomaly is emitted even though `amount ≤ 0`. -/
theorem spec_c5_counterexample :
    (-1 : ℚ) ≤ 0 ∧
    (register_contract pendingLedger "B" (-1) [] {} "C1").2 =
      Except.error "duplicate_contract" ∧
    ((register_contract pendingLedger "B" (-1) [] {} "C1").1.filter
      (fun r => r.metric == some "invalid_amount")) = [] :=
  ⟨by norm_num, rfl, rfl⟩

/-- C5 (amended): for a *fresh* contract id (no prior contract receipt —
otherwise the duplicate-contract stoprule fires first): if `amount ≤ 0` or
the milestone amounts differ from `amount` by more than the `0.01`
tolerance, registration emits one invalid-amount anomaly, raises the
stoprule, and appends no contract receipt; otherwise it appends exactly
one contract receipt, in which every milestone is `PENDING`. -/
theorem spec_c5 (L : Ledger) (contractor : String) (amount : ℚ)
    (ms : List MilestoneInput) (terms : Terms) (cid ctype : String)
    (hfresh : contractReceiptsFor L (some cid) = []) :
    ((amount ≤ 0 ∨ 1/100 < |milestoneSum ms - amount|) →
      (register_contract L contractor amount ms terms cid ctype).2 =
        Except.error "invalid_amount" ∧
      contractsOf (register_contract L contractor amount ms terms cid ctype).1 =
        contractsOf L ∧
      ∃ a, (register_contract L contractor amount ms terms cid ctype).1 =
          L ++ [a] ∧
        a.receipt_type = "anomaly" ∧ a.metric = some "invalid_amount")
    ∧
    (¬(amount ≤ 0 ∨ 1/100 < |milestoneSum ms - amount|) →
      (register_contract L contractor amount ms terms cid ctype).2 =
        Except.ok (contractReceipt contractor amount
          (normalizeMilestones 0 ms) terms cid ctype) ∧
      contractsOf (register_contract L contractor amount ms terms cid ctype).1 =
        contractsOf L ++ [contractReceipt contractor amount
          (normalizeMilestones 0 ms) terms cid ctype] ∧
      ∀ m ∈ (contractReceipt contractor amount
          (normalizeMilestones 0 ms) terms cid ctype).milestones,
        m.status = "PENDING") := by
  constructor
  · intro hbad
    by_cases ha : amount ≤ 0
    · have hreg := register_contract_nonpos L contractor amount ms terms cid ctype
        hfresh ha
      rw [hreg]
      refine ⟨rfl, ?_, ⟨invalidAmountAnomaly cid "Amount must be positive",
        rfl, rfl, rfl⟩⟩
      exact contractsOf_append_single L _
        (fun hab => (by decide : ¬ ("anomaly" : String) = "contract") hab)
    · have hs : 1/100 < |milestoneSum ms - amount| := hbad.resolve_left ha
      have hreg := register_contract_badsum L contractor amount ms terms cid ctype
        hfresh ha hs
      rw [hreg]
      refine ⟨rfl, ?_,
        ⟨invalidAmountAnomaly cid "Milestone sum does not equal contract amount",
         rfl, rfl, rfl⟩⟩
      exact contractsOf_append_single L _
        (fun hab => (by decide : ¬ ("anomaly" : String) = "contract") hab)
  · intro hgood
    obtain ⟨ha, hs⟩ := not_or.mp hgood
    have hreg := register_contract_ok L contractor amount ms terms cid ctype
      hfresh ha hs
    rw [hreg]
    refine ⟨rfl, ?_, ?_⟩
    · rw [contractsOf_append, contractsOf_singleton_c _ rfl]
    · intro m hm
      exact normalizeMilestones_status 0 ms m hm

/-- C5 witness: a fresh registration of amount 100 with one milestone of
100 succeeds and its milestone list is all-`PENDING`. -/
theorem spec_c5_witness :
    (register_contract [] "Acme" 100 [{ id := some "M1", amount := some 100 }]
      {} "C1" "fixed-price").2 =
      Except.ok (contractReceipt "Acme" 100
        (normalizeMilestones 0 [{ id := some "M1", amount := some 100 }])
        {} "C1" "fixed-price") ∧
    ∀ m ∈ (contractReceipt "Acme" 100
        (normalizeMilestones 0 [{ id := some "M1", amount := some 100 }])
        {} "C1" "fixed-price").milestones, m.status = "PENDING" := by
  have h := (spec_c5 [] "Acme" 100 [{ id := some "M1", amount := some 100 }]
    {} "C1" "fixed-price" (by decide)).2 ?_
  · exact ⟨h.1, h.2.2⟩
  · have hsum : milestoneSum [{ id := some "M1", amount := some 100 }] = 100 := by
      simp [milestoneSum]
    rw [hsum]
    norm_num

/-- The concrete receipt used in the C6 counterexample and witness. -/
def c6Receipt : Receipt :=
  { receipt_type := "payment", payload_hash := some "ph1" }

/-- A second receipt, absent from the C6 witness batch. -/
def c6Other : Receipt :=
  { receipt_type := "payment", payload_hash := some "ph2" }

/-- C6 counterexample: `r` is in the batch, yet
`verify_anchor(r, anchor_batch([r]))` is `false` — the anchor emitted by
`anchor_batch` carries no `anchor_type` (so `verify_anchor` treats it as a
"single" anchor) and no `receipt_hash`, so verification can never pass. -/
theorem spec_c6_counterexample :
    c6Receipt ∈ [c6Receipt] ∧
    verify_anchor c6Receipt (anchor_batch [c6Receipt]) = false :=
  ⟨List.mem_singleton.mpr rfl, rfl⟩

/-- C6 (amended): `verify_anchor` against an `anchor_batch` anchor is
*always* `false` (the batch anchor sets neither `anchor_type` nor
`receipt_hash` nor `receipt_ids`); the membership round-trip holds instead
for `anchor_chain`, which stores the truthy receipt ids of the batch:
for a receipt with truthy id `i`, `verify_anchor(r, anchor_chain(B))` is
`true` iff `i` is among the truthy ids of `B`'s members — in particular it
is `true` whenever `r ∈ B`, and `false` whenever `i` is not the id of any
member. -/
theorem spec_c6 :
    (∀ (B : List Receipt) (r : Receipt),
      verify_anchor r (anchor_batch B) = false)
    ∧ (∀ (B : List Receipt) (r : Receipt) (i : String),
        truthyRid r = some i →
        (verify_anchor r (anchor_chain B) = true ↔ i ∈ B.filterMap truthyRid))
    ∧ (∀ (B : List Receipt) (r : Receipt) (i : String),
        r ∈ B → truthyRid r = some i →
        verify_anchor r (anchor_chain B) = true) := by
  have hchain : ∀ (B : List Receipt) (r : Receipt) (i : String),
      ridOf r = some i →
      verify_anchor r (anchor_chain B) = (B.filterMap truthyRid).contains i := by
    intro B r i hrid
    unfold verify_anchor
    rw [show (anchor_chain B).anchor_type = some "chain" from rfl]
    rw [hrid]
    rfl
  have hridOf : ∀ (r : Receipt) (i : String), truthyRid r = some i →
      ridOf r = some i := by
    intro r i hi
    unfold truthyRid at hi
    split at hi
    · exact hi
    · exact Option.noConfusion hi
  refine ⟨?_, ?_, ?_⟩
  · intro B r
    rfl
  · intro B r i hi
    rw [hchain B r i (hridOf r i hi)]
    exact List.elem_iff
  · intro B r i hr hi
    rw [hchain B r i (hridOf r i hi)]
    exact List.elem_iff.mpr (List.mem_filterMap.mpr ⟨r, hr, hi⟩)

/-- C6 witness: `c6Receipt` verifies against the chain anchor of a batch
containing it, and `c6Other` (whose id is not in the batch) does not. -/
theorem spec_c6_witness :
    verify_anchor c6Receipt (anchor_chain [c6Receipt]) = true ∧
    verify_anchor c6Other (anchor_chain [c6Receipt]) = false ∧
    verify_anchor c6Receipt (anchor_batch [c6Receipt]) = false := by
  refine ⟨?_, ?_, spec_c6.1 [c6Receipt] c6Receipt⟩
  · exact spec_c6.2.2 [c6Receipt] c6Receipt "ph1"
      (List.mem_singleton.mpr rfl) rfl
  · have h := (spec_c6.2.1 [c6Receipt] c6Other "ph2" rfl)
    cases hv : verify_anchor c6Other (anchor_chain [c6Receipt]) with
    | false => rfl
    | true =>
        have hmem := h.mp hv
        exact absurd hmem (by decide)

/-- C10: for a contract with no milestone folding to a verified status
(or no milestones at all), `check_variance` reports variance `0` and
appends no variance receipt, no matter how large the paid total is. -/
theorem spec_c10 (L : Ledger) (cid : String) (c : Receipt)
    (h : get_contract L cid = some c)
    (hv : ((get_contract_milestones L cid).filter
        (fun m => verifiedStatuses.contains m.status)).length = 0 ∨
      get_contract_milestones L cid = []) :
    (check_variance L cid).2.variance = 0 ∧ (check_variance L cid).1 = L := by
  have hv0 : ((get_contract_milestones L cid).filter
      (fun m => verifiedStatuses.contains m.status)).length = 0 := by
    rcases hv with hv | hv
    · exact hv
    · rw [hv]
      rfl
  unfold check_variance
  rw [h]
  simp only [hv0, Nat.cast_zero]
  by_cases hlen : (get_contract_milestones L cid).length = 0
  · simp only [hlen, if_pos rfl]
    norm_num [VARIANCE_THRESHOLD]
  · simp only [if_neg hlen, zero_div, mul_zero]
    norm_num [VARIANCE_THRESHOLD]

/-- A contract with both milestones still `PENDING` and a stray payment of
999999: input for the C10 witness. -/
def c10Ledger : Ledger :=
  [{ receipt_type := "contract", contract_id := some "C1",
     amount_fixed := some 1000000, total_value_usd := some 1000000,
     milestones := [{ id := "M1", amount := 500000 },
                    { id := "M2", amount := 500000 }] },
   { receipt_type := "payment", contract_id := some "C1",
     milestone_id := some "M1", amount := some 999999 }]

/-- C10 witness: with zero verified milestones and 999999 paid,
`check_variance` still reports variance 0 and appends nothing. -/
theorem spec_c10_witness :
    (check_variance c10Ledger "C1").2.variance = 0 ∧
    (check_variance c10Ledger "C1").1 = c10Ledger := by
  exact spec_c10 c10Ledger "C1"
    { receipt_type := "contract", contract_id := some "C1",
      amount_fixed := some 1000000, total_value_usd := some 1000000,
      milestones := [{ id := "M1", amount := 500000 },
                     { id := "M2", amount := 500000 }] }
    (by decide) (Or.inl (by decide))

theorem map_update_not_mem (l : List Milestone) (mid : String)
    (f : Milestone → Milestone) (h : mid ∉ l.map Milestone.id) :
    l.map (fun m => if m.id == mid then f m else m) = l := by
  induction l with
  | nil => rfl
  | cons x xs ih =>
      simp only [List.map_cons, List.mem_cons] at h
      push_neg at h
      have hx : (x.id == mid) = false :=
        beq_eq_false_iff_ne.mpr (fun hc => h.1 hc.symm)
      simp only [List.map_cons, hx, Bool.false_eq_true, if_false]
      rw [ih h.2]

theorem applyMR_not_mem (l : List Milestone) (r : Receipt) (mid : String)
    (hmid : r.milestone_id = some mid) (h : mid ∉ l.map Milestone.id) :
    applyMR l r = l := by
  unfold applyMR
  rw [hmid]
  exact map_update_not_mem l mid (applyUpd r) h

/-- C9: the folded milestone list of a contract has exactly one entry per
milestone id declared in the registration receipt (no duplicates, same id
set), and appending a milestone receipt whose `milestone_id` is not among
the declared ids leaves the fold unchanged — receipts can never add or
remove a milestone. -/
theorem spec_c9 (L : Ledger) (cid : String) (c : Receipt)
    (h : get_contract L cid = some c) :
    (((get_contract_milestones L cid).map Milestone.id).Nodup ∧
      ∀ i, i ∈ (get_contract_milestones L cid).map Milestone.id ↔
        i ∈ c.milestones.map Milestone.id)
    ∧ ∀ r : Receipt, r.receipt_type = "milestone" → r.contract_id = some cid →
        (∀ mid, r.milestone_id = some mid →
          mid ∉ c.milestones.map Milestone.id) →
        get_contract_milestones (L ++ [r]) cid = get_contract_milestones L cid := by
  have hids := get_contract_milestones'_ids L (some cid) c h
  have hdef : get_contract_milestones L cid = get_contract_milestones' L (some cid) :=
    rfl
  refine ⟨⟨?_, ?_⟩, ?_⟩
  · rw [hdef, hids]
    exact baseMilestones_ids_nodup c.milestones
  · intro i
    rw [hdef, hids]
    exact mem_baseMilestones_ids c.milestones i
  · intro r hrt hrc hrm
    have hc' : contractsOf (L ++ [r]) = contractsOf L := by
      apply contractsOf_append_single
      intro hab
      rw [hrt] at hab
      exact absurd hab (by decide)
    have hg' : get_contract' (L ++ [r]) (some cid) = some c := by
      rw [get_contract'_congr (L ++ [r]) L (some cid) hc']
      exact h
    have hmr : milestoneReceiptsFor (L ++ [r]) (some cid) =
        milestoneReceiptsFor L (some cid) ++ [r] := by
      unfold milestoneReceiptsFor
      rw [milestonesOf_append, milestonesOf_singleton_ms r hrt, List.filter_append]
      simp [hrc]
    have h' : get_contract' L (some cid) = some c := h
    show get_contract_milestones' (L ++ [r]) (some cid) =
      get_contract_milestones' L (some cid)
    unfold get_contract_milestones'
    rw [hg', h', hmr]
    show List.foldl applyMR (baseMilestones c.milestones)
        (milestoneReceiptsFor L (some cid) ++ [r]) =
      List.foldl applyMR (baseMilestones c.milestones)
        (milestoneReceiptsFor L (some cid))
    rw [List.foldl_append]
    simp only [List.foldl_cons, List.foldl_nil]
    cases hmid : r.milestone_id with
    | none =>
        unfold applyMR
        rw [hmid]
    | some mid =>
        apply applyMR_not_mem _ r mid hmid
        rw [foldl_applyMR_map_id]
        intro hmem
        exact hrm mid hmid ((mem_baseMilestones_ids c.milestones mid).mp hmem)

/-- A foreign milestone receipt (id `MX` not declared in `C1`). -/
def foreignMilestoneReceipt : Receipt :=
  { receipt_type := "milestone", contract_id := some "C1",
    milestone_id := some "MX", status := some "VERIFIED" }

/-- C9 witness: on `pendingLedger`, the folded ids are exactly `["M1"]`
and appending a receipt for undeclared `MX` changes nothing. -/
theorem spec_c9_witness :
    ((get_contract_milestones pendingLedger "C1").map Milestone.id).Nodup ∧
    ("M1" ∈ (get_contract_milestones pendingLedger "C1").map Milestone.id) ∧
    get_contract_milestones (pendingLedger ++ [foreignMilestoneReceipt]) "C1" =
      get_contract_milestones pendingLedger "C1" := by
  have h := spec_c9 pendingLedger "C1"
    { receipt_type := "contract", contract_id := some "C1",
      amount_fixed := some 100, total_value_usd := some 100,
      milestones := [{ id := "M1", amount := 100 }] }
    (by decide)
  refine ⟨h.1.1, ?_, ?_⟩
  · exact (h.1.2 "M1").mpr (by decide)
  · exact h.2 foreignMilestoneReceipt rfl rfl
      (fun mid hmid hmem => by
        injection hmid with hmid
        subst hmid
        exact absurd hmem (by decide))

/-- The C7 scenario contract: $1,000,000, two equal milestones. -/
def c7Contract : Receipt :=
  { receipt_type := "contract", contract_id := some "C1",
    amount_fixed := some 1000000, total_value_usd := some 1000000,
    milestones := [{ id := "M1", amount := 500000 },
                   { id := "M2", amount := 500000 }] }

/-- The C7 scenario: `M1` verified. -/
def c7Verified : Receipt :=
  { receipt_type := "milestone", contract_id := some "C1",
    milestone_id := some "M1", status := some "VERIFIED" }

/-- The C7 scenario: $600,000 paid against `M1`. -/
def c7Payment : Receipt :=
  { receipt_type := "payment", contract_id := some "C1",
    milestone_id := some "M1", amount := some 600000 }

def c7Ledger : Ledger := [c7Contract, c7Verified, c7Payment]

theorem c7_total_paid : total_paid c7Ledger "C1" = 600000 := by
  show total_paid' c7Ledger (some "C1") = 600000
  unfold total_paid'
  rw [show paymentReceiptsFor c7Ledger (some "C1") = [c7Payment] from by decide]
  show payAmount c7Payment + 0 = 600000
  norm_num [payAmount, c7Payment]

theorem c7_amount_verified : amountVerifiedOf c7Ledger (some "C1") = 500000 := by
  unfold amountVerifiedOf
  rw [show (get_contract_milestones' c7Ledger (some "C1")).filter
      (fun m => verifiedStatuses.contains m.status) =
      [{ id := "M1", amount := 500000, status := "VERIFIED" }] from by decide]
  show (500000 : ℚ) + 0 = 500000
  norm_num

/-- C7: on the scenario ledger (contract of 1,000,000 with two equal
milestones, one of them VERIFIED, 600,000 paid), `check_variance` reports
expected spend 500,000, actual spend 600,000 and variance 1/5 (= 0.20),
and `reconcile_contract` classifies the contract OVERPAID; in general the
reported actual spend is the sum of the payment receipts and the expected
spend is the contract amount times verified-milestone-count over
total-milestone-count. -/
theorem spec_c7 :
    ((check_variance c7Ledger "C1").2.expected_spend_usd = 500000 ∧
     (check_variance c7Ledger "C1").2.actual_spend_usd = 600000 ∧
     (check_variance c7Ledger "C1").2.variance = 1/5 ∧
     (reconcile_contract c7Ledger "C1").1.status = "OVERPAID")
    ∧
    (∀ (L : Ledger) (cid : String) (c : Receipt),
      get_contract L cid = some c →
      (check_variance L cid).2.actual_spend_usd = total_paid L cid ∧
      (get_contract_milestones L cid ≠ [] →
        (check_variance L cid).2.expected_spend_usd =
          (c.amount_fixed.getD (c.total_value_usd.getD 0)) *
            ((((get_contract_milestones L cid).filter
                (fun m => verifiedStatuses.contains m.status)).length : ℚ) /
              ((get_contract_milestones L cid).length : ℚ)))) := by
  have hc7 : get_contract c7Ledger "C1" = some c7Contract := by decide
  have hcnt : ((get_contract_milestones c7Ledger "C1").filter
      (fun m => verifiedStatuses.contains m.status)).length = 1 := by decide
  have hlen : (get_contract_milestones c7Ledger "C1").length = 2 := by decide
  constructor
  · refine ⟨?_, ?_, ?_, ?_⟩
    · simp only [check_variance, hc7]
      rw [hcnt, hlen, c7_total_paid]
      norm_num [c7Contract, VARIANCE_THRESHOLD, VARIANCE_CRITICAL]
      split <;> rfl
    · simp only [check_variance, hc7]
      rw [hcnt, hlen, c7_total_paid]
      norm_num [c7Contract, VARIANCE_THRESHOLD, VARIANCE_CRITICAL]
      split <;> rfl
    · simp only [check_variance, hc7]
      rw [hcnt, hlen, c7_total_paid]
      norm_num [c7Contract, VARIANCE_THRESHOLD, VARIANCE_CRITICAL]
      split <;> rfl
    · show (reconcile_contract' c7Ledger (some "C1")).1.status = "OVERPAID"
      simp only [reconcile_contract',
        show get_contract' c7Ledger (some "C1") = some c7Contract from by decide]
      rw [show ((get_contract_milestones' c7Ledger (some "C1")).filter
          (fun m => (["DISPUTED", "rejected"] : List String).contains m.status)).length
          = 0 from by decide]
      rw [show unverifiedPayments (get_contract_milestones' c7Ledger (some "C1"))
          (paymentReceiptsFor c7Ledger (some "C1")) = [] from by decide]
      rw [c7_amount_verified]
      rw [show total_paid' c7Ledger (some "C1") = 600000 from c7_total_paid]
      norm_num
  · intro L cid c h
    constructor
    · simp only [check_variance, h]
      split_ifs <;> rfl
    · intro hne
      have hlen0 : ¬ (get_contract_milestones L cid).length = 0 :=
        fun hc0 => hne (List.length_eq_zero.mp hc0)
      simp only [check_variance, h, if_neg hlen0]
      split_ifs <;> rfl

/-- C7 witness: the general expected/actual formulas instantiated on the
scenario ledger. -/
theorem spec_c7_witness :
    (check_variance c7Ledger "C1").2.actual_spend_usd = total_paid c7Ledger "C1" ∧
    (check_variance c7Ledger "C1").2.expected_spend_usd =
      (c7Contract.amount_fixed.getD (c7Contract.total_value_usd.getD 0)) *
        ((((get_contract_milestones c7Ledger "C1").filter
            (fun m => verifiedStatuses.contains m.status)).length : ℚ) /
          ((get_contract_milestones c7Ledger "C1").length : ℚ)) := by
  have h := spec_c7.2 c7Ledger "C1" c7Contract (by decide)
  exact ⟨h.1, h.2 (by decide)⟩

/-! ### Reconcile-all support lemmas -/

theorem noise_of_anomaly (r : Receipt) (h : r.receipt_type = "anomaly") :
    noise r := by
  refine ⟨?_, ?_, ?_⟩ <;> rw [h] <;> decide

theorem amountVerifiedOf_congr (L₁ L₂ : Ledger) (oc : Option String)
    (hc : contractsOf L₁ = contractsOf L₂)
    (hm : milestonesOf L₁ = milestonesOf L₂) :
    amountVerifiedOf L₁ oc = amountVerifiedOf L₂ oc := by
  unfold amountVerifiedOf
  rw [get_contract_milestones'_congr L₁ L₂ oc hc hm]

theorem paymentReceiptsFor_congr (L₁ L₂ : Ledger) (oc : Option String)
    (h : paymentsOf L₁ = paymentsOf L₂) :
    paymentReceiptsFor L₁ oc = paymentReceiptsFor L₂ oc := by
  unfold paymentReceiptsFor
  rw [h]

/-- Appending query-invisible receipts (anomalies, variance receipts,
anchors) never changes a reconciliation report. -/
theorem reconcile_contract'_noise (L extra : Ledger) (oc : Option String)
    (h : ∀ r ∈ extra, noise r) :
    reconcile_contract' (L ++ extra) oc = reconcile_contract' L oc := by
  have hc := contractsOf_append_noise L extra h
  have hm := milestonesOf_append_noise L extra h
  have hp := paymentsOf_append_noise L extra h
  unfold reconcile_contract'
  rw [get_contract'_congr (L ++ extra) L oc hc,
    get_contract_milestones'_congr (L ++ extra) L oc hc hm,
    amountVerifiedOf_congr (L ++ extra) L oc hc hm,
    total_paid'_congr (L ++ extra) L oc hp,
    paymentReceiptsFor_congr (L ++ extra) L oc hp]

theorem reconcile_contract'_anoms (L : Ledger) (oc : Option String) :
    ∀ r ∈ (reconcile_contract' L oc).2, noise r := by
  unfold reconcile_contract'
  cases hg : get_contract' L oc with
  | none =>
      intro r hr
      simp at hr
  | some c =>
      intro r hr
      show noise r
      rcases List.mem_append.mp hr with h1 | h2
      · split at h1
        · rw [List.mem_singleton] at h1
          subst h1
          exact noise_of_anomaly _ rfl
        · simp at h1
      · obtain ⟨p, _, hpe⟩ := List.mem_map.mp h2
        subst hpe
        exact noise_of_anomaly _ rfl

theorem reconcileAllAux_snd (cs : List (Option String)) :
    ∀ (L extra : Ledger), (∀ r ∈ extra, noise r) →
      (reconcileAllAux (L ++ extra) cs).2 =
        cs.map (fun oc => (reconcile_contract' L oc).1) := by
  induction cs with
  | nil =>
      intro L extra h
      rfl
  | cons oc cs ih =>
      intro L extra h
      have he := reconcile_contract'_noise L extra oc h
      show ((reconcileAllAux ((L ++ extra) ++ (reconcile_contract' (L ++ extra) oc).2) cs).1,
        (reconcile_contract' (L ++ extra) oc).1 ::
          (reconcileAllAux ((L ++ extra) ++ (reconcile_contract' (L ++ extra) oc).2) cs).2).2 =
        _
    
      rw [he, List.append_assoc]
      have hnoise : ∀ r ∈ extra ++ (reconcile_contract' L oc).2, noise r := by
        intro r hr
        rcases List.mem_append.mp hr with hr | hr
        · exact h r hr
        · exact reconcile_contract'_anoms L oc r hr
      rw [ih L (extra ++ (reconcile_contract' L oc).2) hnoise]
      rfl

theorem reconcile_all_reports (L : Ledger) :
    (reconcile_all L).2 =
      (contractKeys L).map (fun oc => (reconcile_contract' L oc).1) := by
  have h := reconcileAllAux_snd (contractKeys L) L [] (by intro r hr; simp at hr)
  rw [List.append_nil] at h
  exact h

theorem mem_dedupKeys {x : Option String} : ∀ l, x ∈ dedupKeys l → x ∈ l := by
  intro l
  induction l using dedupKeys.induct with
  | case1 =>
      intro h
      simp [dedupKeys] at h
  | case2 y ys ih =>
      intro h
      rw [dedupKeys] at h
      rcases List.mem_cons.mp h with rfl | h
      · exact List.mem_cons_self _ _
      · exact List.mem_cons_of_mem _ (List.mem_of_mem_filter (ih h))

theorem get_contract'_isSome_of_key (L : Ledger) (oc : Option String)
    (h : oc ∈ contractKeys L) : (get_contract' L oc).isSome := by
  have h' : oc ∈ (contractsOf L).map (fun r => r.contract_id) :=
    mem_dedupKeys _ h
  obtain ⟨r, hr, hrc⟩ := List.mem_map.mp h'
  have hmem : r ∈ (contractsOf L).filter (fun x => x.contract_id == oc) :=
    List.mem_filter.mpr ⟨hr, by rw [hrc]; exact beq_self_eq_true oc⟩
  unfold get_contract' contractReceiptsFor
  rw [List.getLast?_isSome]
  exact List.ne_nil_of_mem hmem

theorem reconcile_report_amounts (L : Ledger) (oc : Option String)
    (c : Receipt) (h : get_contract' L oc = some c) :
    (reconcile_contract' L oc).1.amount_paid = total_paid' L oc ∧
    (reconcile_contract' L oc).1.amount_verified = amountVerifiedOf L oc := by
  unfold reconcile_contract'
  rw [h]
  exact ⟨rfl, rfl⟩

theorem unverifiedPayments_eq_nil_of_paid (ms : List Milestone)
    (payments : List Receipt)
    (hall : ∀ m ∈ ms, m.status = "PAID") :
    unverifiedPayments ms payments = [] := by
  unfold unverifiedPayments
  rw [List.filter_eq_nil_iff]
  intro p _
  cases hmid : p.milestone_id with
  | none => simp
  | some pmid =>
      show ¬(match ms.find? (fun m => m.id == pmid) with
          | none => false
          | some m => !verifiedStatuses.contains m.status) = true
      cases hfind : ms.find? (fun m => m.id == pmid) with
      | none => simp
      | some m =>
          have hm : m ∈ ms := List.mem_of_find?_eq_some hfind
          have hmem : m.status ∈ verifiedStatuses := by
            rw [hall m hm]
            decide
          simp [hmem]

theorem reconcile_status_on_track (L : Ledger) (oc : Option String)
    (c : Receipt) (h : get_contract' L oc = some c)
    (hall : ∀ m ∈ get_contract_milestones' L oc, m.status = "PAID")
    (hpaid : total_paid' L oc = amountVerifiedOf L oc) :
    (reconcile_contract' L oc).1.status = "ON_TRACK" := by
  have hdisp : ((get_contract_milestones' L oc).filter
      (fun m => (["DISPUTED", "rejected"] : List String).contains m.status)).length
      = 0 := by
    rw [List.length_eq_zero, List.filter_eq_nil_iff]
    intro m hm
    rw [hall m hm]
    decide
  have hunv := unverifiedPayments_eq_nil_of_paid
    (get_contract_milestones' L oc) (paymentReceiptsFor L oc) hall
  have hov : ¬ (amountVerifiedOf L oc < total_paid' L oc) := by
    rw [hpaid]
    exact lt_irrefl _
  simp only [reconcile_contract', h]
  rw [hdisp, hunv]
  simp only [lt_irrefl, if_false, List.isEmpty_nil, Bool.not_true,
    Bool.false_eq_true, if_neg hov]

theorem get_waste_summary_waste (L : Ledger) :
    (get_waste_summary L).2.waste_identified =
      max 0 (((contractKeys L).map (fun oc => total_paid' L oc)).sum -
        ((contractKeys L).map (fun oc => amountVerifiedOf L oc)).sum) := by
  have hpaid : ((reconcile_all L).2.map (fun r => r.amount_paid)).sum =
      ((contractKeys L).map (fun oc => total_paid' L oc)).sum := by
    rw [reconcile_all_reports, List.map_map]
    congr 1
    apply List.map_congr_left
    intro oc hoc
    obtain ⟨c, hc⟩ :=
      Option.isSome_iff_exists.mp (get_contract'_isSome_of_key L oc hoc)
    exact (reconcile_report_amounts L oc c hc).1
  have hver : ((reconcile_all L).2.map (fun r => r.amount_verified)).sum =
      ((contractKeys L).map (fun oc => amountVerifiedOf L oc)).sum := by
    rw [reconcile_all_reports, List.map_map]
    congr 1
    apply List.map_congr_left
    intro oc hoc
    obtain ⟨c, hc⟩ :=
      Option.isSome_iff_exists.mp (get_contract'_isSome_of_key L oc hoc)
    exact (reconcile_report_amounts L oc c hc).2
  show (if ((reconcile_all L).2.map (fun r => r.amount_verified)).sum <
        ((reconcile_all L).2.map (fun r => r.amount_paid)).sum then
      ((reconcile_all L).2.map (fun r => r.amount_paid)).sum -
        ((reconcile_all L).2.map (fun r => r.amount_verified)).sum
    else 0) = _
  rw [hpaid, hver]
  rcases lt_or_le (((contractKeys L).map (fun oc => amountVerifiedOf L oc)).sum)
    (((contractKeys L).map (fun oc => total_paid' L oc)).sum) with h | h
  · rw [if_pos h, max_eq_right (le_of_lt (sub_pos.mpr h))]
  · rw [if_neg (not_lt.mpr h), max_eq_left (sub_nonpos.mpr h)]

/-- C8: `get_waste_summary` reports
`waste_identified = max(0, total_paid − total_verified)` aggregated over
all (deduplicated) contracts; and on any ledger where every milestone of
every contract folds to `PAID` and each contract's paid total equals the
sum of its milestone amounts, `reconcile_all` classifies every contract
`ON_TRACK` and the reported waste is `0`. -/
theorem spec_c8 :
    (∀ L : Ledger,
      (get_waste_summary L).2.waste_identified =
        max 0 (((contractKeys L).map (fun oc => total_paid' L oc)).sum -
          ((contractKeys L).map (fun oc => amountVerifiedOf L oc)).sum))
    ∧
    (∀ L : Ledger,
      (∀ oc ∈ contractKeys L,
        (∀ m ∈ get_contract_milestones' L oc, m.status = "PAID") ∧
        total_paid' L oc =
          ((get_contract_milestones' L oc).map (fun m => m.amount)).sum) →
      ((reconcile_all L).2.all (fun r => r.status == "ON_TRACK")) = true ∧
      (get_waste_summary L).2.waste_identified = 0) := by
  have hverified_sum : ∀ (L : Ledger) (oc : Option String),
      (∀ m ∈ get_contract_milestones' L oc, m.status = "PAID") →
      amountVerifiedOf L oc =
        ((get_contract_milestones' L oc).map (fun m => m.amount)).sum := by
    intro L oc hall
    unfold amountVerifiedOf
    rw [List.filter_eq_self.mpr]
    intro m hm
    rw [hall m hm]
    decide
  refine ⟨get_waste_summary_waste, ?_⟩
  intro L hyp
  have hpv : ∀ oc ∈ contractKeys L, total_paid' L oc = amountVerifiedOf L oc := by
    intro oc hoc
    rw [(hyp oc hoc).2, hverified_sum L oc (hyp oc hoc).1]
  constructor
  · rw [reconcile_all_reports, List.all_eq_true]
    intro r hr
    obtain ⟨oc, hoc, hre⟩ := List.mem_map.mp hr
    obtain ⟨c, hc⟩ :=
      Option.isSome_iff_exists.mp (get_contract'_isSome_of_key L oc hoc)
    have := reconcile_status_on_track L oc c hc (hyp oc hoc).1 (hpv oc hoc)
    rw [← hre]
    exact beq_iff_eq.mpr this
  · rw [get_waste_summary_waste]
    have hsums : ((contractKeys L).map (fun oc => total_paid' L oc)).sum =
        ((contractKeys L).map (fun oc => amountVerifiedOf L oc)).sum := by
      congr 1
      apply List.map_congr_left
      exact hpv
    rw [hsums, sub_self, max_self]

/-- A fully delivered, verified and paid contract: both milestones fold to
`PAID` and the payments sum to the milestone amounts. -/
def c8Ledger : Ledger :=
  [{ receipt_type := "contract", contract_id := some "C1",
     amount_fixed := some 1000000, total_value_usd := some 1000000,
     milestones := [{ id := "M1", amount := 500000, status := "PAID" },
                    { id := "M2", amount := 500000, status := "PAID" }] },
   { receipt_type := "payment", contract_id := some "C1",
     milestone_id := some "M1", amount := some 500000 },
   { receipt_type := "payment", contract_id := some "C1",
     milestone_id := some "M2", amount := some 500000 }]

/-- C8 witness: on the fully-paid `c8Ledger`, every report is `ON_TRACK`
and the waste summary is `0`. -/
theorem spec_c8_witness :
    ((reconcile_all c8Ledger).2.all (fun r => r.status == "ON_TRACK")) = true ∧
    (get_waste_summary c8Ledger).2.waste_identified = 0 := by
  apply spec_c8.2
  intro oc hoc
  have hkeys : contractKeys c8Ledger = [some "C1"] := by
    show dedupKeys ((contractsOf c8Ledger).map (fun r => r.contract_id)) = _
    rw [show (contractsOf c8Ledger).map (fun r => r.contract_id) = [some "C1"]
      from by decide]
    simp [dedupKeys]
  rw [hkeys, List.mem_singleton] at hoc
  subst hoc
  refine ⟨by decide, ?_⟩
  rfl
